import Mathlib

/-!
Verification development for the `claude-cost` usage-analysis tool.

The definitions below are a shallow embedding of the Python sources
(`src/claude_cost/core.py`, `metrics.py`, `predictions.py`,
`advanced_predictions.py`, `__init__.py`, `cli.py`).

Modelling conventions:
* timestamps are integer seconds since the UTC epoch (`Int`); a time
  difference in seconds replaces `(t1 - t2).total_seconds()`, and the
  hour-of-day of a timestamp `t` is `(t / 3600) % 24`;
* Python floats are modelled by `ℚ` in the ingestion/metrics layer (all
  arithmetic there is +, *, /) and by `ℝ` in the advanced predictor
  (which uses `log`, `sqrt`, `exp`);
* Python `int(x)` is truncation toward zero (`pyInt`);
* fallible Python code returns `Except PyExc _`; the exception
  constructors mirror the exception classes that the source can raise,
  and a `try/except` clause is modelled by catching exactly the listed
  constructors;
* the wall-clock instant sampled by the source (`datetime.now`) is an
  explicit `now : Int` parameter threaded through the state.
-/

namespace ClaudeCost

/-- Python exception classes that the embedded code can raise. -/
inductive PyExc where
  | jsonDecodeError
  | keyError
  | valueError
  | attributeError
  | typeError
  | zeroDivisionError
  | statisticsError
deriving DecidableEq, Repr

/-- Per-model rate card (price per million tokens), from `models.PRICING`. -/
structure Pricing where
  input : ℚ
  output : ℚ
  cache_creation : ℚ
  cache_read : ℚ
deriving DecidableEq, Repr

/-- The pricing table of `models.py` (June 2025 rates), keyed by exact
model identifier string; identifiers outside the table price at zero. -/
def PRICING (model : String) : Option Pricing :=
  if model = "claude-opus-4-20250514" then some ⟨15, 75, 18.75, 1.50⟩
  else if model = "claude-sonnet-4-20250514" then some ⟨3, 15, 3.75, 0.30⟩
  else if model = "claude-haiku-3.5-20241022" then some ⟨0.80, 4, 1, 0.08⟩
  else none

/-- The three model identifiers that appear as keys of `PRICING`. -/
def pricingKeys : List String :=
  ["claude-opus-4-20250514", "claude-sonnet-4-20250514", "claude-haiku-3.5-20241022"]

/-- The usage fields of one assistant record, after extraction in
`DataProcessor._process_usage_data` (token counts default to 0, the
model to `"unknown"`).  Token counts are `Int` because the source never
constrains their sign. -/
structure Msg where
  timestamp : Option Int
  model : String
  input_tokens : Int
  output_tokens : Int
  cache_creation_tokens : Int
  cache_read_tokens : Int
deriving DecidableEq, Repr

/-- `message_tokens`: sum of the four token counts. -/
def Msg.tokens (m : Msg) : Int :=
  m.input_tokens + m.output_tokens + m.cache_creation_tokens + m.cache_read_tokens

/-- `DataProcessor._calculate_message_cost`. -/
def calculateMessageCost (model : String) (input_tokens output_tokens
    cache_creation_tokens cache_read_tokens : Int) : ℚ :=
  match PRICING model with
  | none => 0
  | some pricing =>
      (input_tokens : ℚ) / 1000000 * pricing.input +
      (output_tokens : ℚ) / 1000000 * pricing.output +
      (cache_creation_tokens : ℚ) / 1000000 * pricing.cache_creation +
      (cache_read_tokens : ℚ) / 1000000 * pricing.cache_read

/-- Hour-of-day of an epoch timestamp (model of `datetime.hour`). -/
def hourOf (t : Int) : Int := (t / 3600) % 24

/-- The `message_data` dict built in `_process_usage_data`. -/
structure StoredMsg where
  timestamp : Option Int
  model : String
  cost : ℚ
  tokens : Int
  input_tokens : Int
  output_tokens : Int
  cache_creation_tokens : Int
  cache_read_tokens : Int
  hour : Int
deriving DecidableEq, Repr

/-- A session dict (`_start_new_session`). -/
structure Session where
  start : Int
  messages : List StoredMsg
  total_cost : ℚ
  total_tokens : Int
deriving DecidableEq, Repr

/-- A recorded limit-hit event (`_check_for_limit_hits`); events are only
recorded when a timestamp was parsed, so the timestamp is total here. -/
structure LimitHit where
  timestamp : Int
  indicator : String
  session_tokens : Int
  session_messages : Int
deriving DecidableEq, Repr

/-- One entry of `model_usage` (`_categorize_message`). -/
structure ModelUse where
  cost : ℚ
  tokens : Int
  efficiency : ℚ
deriving DecidableEq, Repr

/-- The mutable state of `DataProcessor`.  `now` is the wall-clock
instant sampled for the last-5-hours filter. -/
structure ProcState where
  now : Int
  all_messages : List StoredMsg
  all_sessions : List Session
  limit_hits : List LimitHit
  hourly_patterns : List (Int × List ℚ)
  model_usage : List (String × List ModelUse)
  token_bucket_small : List StoredMsg
  token_bucket_medium : List StoredMsg
  token_bucket_large : List StoredMsg
  token_bucket_xlarge : List StoredMsg
  all_timestamps : List Int
  last_5h_messages : List StoredMsg
  total_cost : ℚ
  total_tokens : Int
  total_input_tokens : Int
  total_output_tokens : Int
  total_cache_creation_tokens : Int
  total_cache_read_tokens : Int
  current_session : Option Session
  session_start : Option Int
deriving DecidableEq, Repr

/-- `DataProcessor.__init__`. -/
def initState (now : Int) : ProcState :=
  { now := now, all_messages := [], all_sessions := [], limit_hits := []
    hourly_patterns := [], model_usage := []
    token_bucket_small := [], token_bucket_medium := []
    token_bucket_large := [], token_bucket_xlarge := []
    all_timestamps := [], last_5h_messages := []
    total_cost := 0, total_tokens := 0, total_input_tokens := 0
    total_output_tokens := 0, total_cache_creation_tokens := 0
    total_cache_read_tokens := 0
    current_session := none, session_start := none }

/-- Append a value to a `defaultdict(list)` keyed by hour. -/
def ddAppendCost : List (Int × List ℚ) → Int → ℚ → List (Int × List ℚ)
  | [], k, v => [(k, [v])]
  | (h, cs) :: rest, k, v =>
      if h = k then (h, cs ++ [v]) :: rest else (h, cs) :: ddAppendCost rest k v

/-- Append a value to a `defaultdict(list)` keyed by model name. -/
def ddAppendUse : List (String × List ModelUse) → String → ModelUse →
    List (String × List ModelUse)
  | [], k, v => [(k, [v])]
  | (h, us) :: rest, k, v =>
      if h = k then (h, us ++ [v]) :: rest else (h, us) :: ddAppendUse rest k v

/-- `DataProcessor._start_new_session`. -/
def startNewSession (st : ProcState) (t : Int) : ProcState :=
  { st with current_session := some ⟨t, [], 0, 0⟩, session_start := some t }

/-- `DataProcessor._handle_session_boundary`.  Note that the gap test
compares the incoming timestamp against the stored session START
timestamp, not against the previous message timestamp. -/
def handleSessionBoundary (st : ProcState) (t : Int) : ProcState :=
  match st.session_start with
  | some s =>
      if t - s > 3600 then
        startNewSession
          (match st.current_session with
           | some c => { st with all_sessions := st.all_sessions ++ [c] }
           | none => st) t
      else if st.current_session.isNone then startNewSession st t else st
  | none => if st.current_session.isNone then startNewSession st t else st

/-- `DataProcessor._store_message_data`. -/
def storeMessageData (st : ProcState) (m : StoredMsg) : ProcState :=
  let st1 := { st with all_messages := st.all_messages ++ [m] }
  let st2 :=
    match m.timestamp with
    | some t =>
        if st1.now - 5 * 3600 ≤ t then
          { st1 with last_5h_messages := st1.last_5h_messages ++ [m] }
        else st1
    | none => st1
  let st3 :=
    match st2.current_session with
    | some c =>
        let c2 : Session :=
          { c with messages := c.messages ++ [m],
                   total_cost := c.total_cost + m.cost,
                   total_tokens := c.total_tokens + m.tokens }
        { st2 with current_session := some c2 }
    | none => st2
  { st3 with
      total_cost := st3.total_cost + m.cost
      total_tokens := st3.total_tokens + m.tokens
      total_input_tokens := st3.total_input_tokens + m.input_tokens
      total_output_tokens := st3.total_output_tokens + m.output_tokens
      total_cache_creation_tokens := st3.total_cache_creation_tokens + m.cache_creation_tokens
      total_cache_read_tokens := st3.total_cache_read_tokens + m.cache_read_tokens }

/-- `DataProcessor._categorize_message`. -/
def categorizeMessage (st : ProcState) (m : StoredMsg) : ProcState :=
  let st1 :=
    match m.timestamp with
    | some t => { st with hourly_patterns := ddAppendCost st.hourly_patterns (hourOf t) m.cost }
    | none => st
  let st2 :=
    if m.tokens > 0 then
      let use : ModelUse :=
        ⟨m.cost, m.tokens, if m.cost > 0 then (m.tokens : ℚ) / m.cost else 0⟩
      { st1 with model_usage := ddAppendUse st1.model_usage m.model use }
    else st1
  if m.tokens ≤ 10000 then
    { st2 with token_bucket_small := st2.token_bucket_small ++ [m] }
  else if m.tokens ≤ 50000 then
    { st2 with token_bucket_medium := st2.token_bucket_medium ++ [m] }
  else if m.tokens ≤ 200000 then
    { st2 with token_bucket_large := st2.token_bucket_large ++ [m] }
  else
    { st2 with token_bucket_xlarge := st2.token_bucket_xlarge ++ [m] }

/-- The `message_data` record built for one usage-bearing line. -/
def mkStoredMsg (m : Msg) : StoredMsg :=
  { timestamp := m.timestamp
    model := m.model
    cost := calculateMessageCost m.model m.input_tokens m.output_tokens
      m.cache_creation_tokens m.cache_read_tokens
    tokens := m.tokens
    input_tokens := m.input_tokens
    output_tokens := m.output_tokens
    cache_creation_tokens := m.cache_creation_tokens
    cache_read_tokens := m.cache_read_tokens
    hour := match m.timestamp with | some t => hourOf t | none => 0 }

/-- Tail of `DataProcessor._process_usage_data`: build the message
record, store it and categorize it. -/
def processUsageMsg (st : ProcState) (m : Msg) : ProcState :=
  let sm := mkStoredMsg m
  categorizeMessage (storeMessageData st sm) sm

/-- The `_process_line` pipeline for a well-formed usage-bearing record:
record the parsed timestamp, handle the session boundary, then process
the usage data.  (Limit-hit detection inspects only metadata and is
modelled at the JSON level below.) -/
def processRecord (st : ProcState) (m : Msg) : ProcState :=
  let st1 :=
    match m.timestamp with
    | some t =>
        handleSessionBoundary
          { st with all_timestamps := st.all_timestamps ++ [t] } t
    | none => st
  processUsageMsg st1 m

/-- End of `DataProcessor.process_files`: close the still-open session. -/
def finalizeSessions (st : ProcState) : ProcState :=
  match st.current_session with
  | some c => { st with all_sessions := st.all_sessions ++ [c] }
  | none => st

/-- Run the processor over a list of usage-bearing records. -/
def runProcessor (now : Int) (msgs : List Msg) : ProcState :=
  finalizeSessions (msgs.foldl processRecord (initState now))

/-- Number of sessions produced by a run. -/
def sessionCount (now : Int) (msgs : List Msg) : ℕ :=
  (runProcessor now msgs).all_sessions.length

/-- A usage record with a timestamp, fixed model and fixed token counts,
used in concrete scenarios. -/
def usageAt (t : Int) : Msg :=
  { timestamp := some t, model := "claude-sonnet-4-20250514"
    input_tokens := 100, output_tokens := 0
    cache_creation_tokens := 0, cache_read_tokens := 0 }

/-! ### Legacy prediction analyzer (`core.PredictionAnalyzer`) -/

/-- `statistics.mean` on rationals; every call site in the embedded code
guards against the empty list, on which Python would raise instead. -/
def pyMeanQ (l : List ℚ) : ℚ := l.sum / l.length

/-- Python `int(x)`: truncation toward zero. -/
def pyInt (q : ℚ) : ℤ := if 0 ≤ q then ⌊q⌋ else ⌈q⌉

/-- `PredictionAnalyzer.usage_limit_threshold`. -/
def usageLimitThreshold : ℤ := 9000000

/-- One five-hour pre-limit pattern dict (`analyze_five_hour_patterns`). -/
structure FiveHourPattern where
  total_tokens : Int
  total_messages : ℕ
  total_cost : ℚ
  avg_tokens_per_minute : ℚ
  final_hour_tokens : Int
  limit_timestamp : Int
deriving DecidableEq, Repr

/-- `PredictionAnalyzer.analyze_five_hour_patterns`.  (The source also
guards `if hit['timestamp']`, which is always true because hits are only
recorded for lines with a parsed timestamp.) -/
def analyzeFiveHourPatterns (msgs : List StoredMsg) (hits : List LimitHit) :
    List FiveHourPattern :=
  hits.filterMap fun hit =>
    let pre := msgs.filter fun m =>
      match m.timestamp with
      | some ts => (hit.timestamp - 5 * 3600 ≤ ts) && (ts < hit.timestamp)
      | none => false
    if pre = [] then none
    else some
      { total_tokens := (pre.map (·.tokens)).sum
        total_messages := pre.length
        total_cost := (pre.map (·.cost)).sum
        avg_tokens_per_minute := ((pre.map (·.tokens)).sum : ℚ) / (5 * 60)
        final_hour_tokens :=
          if pre.length > 60 then ((pre.drop (pre.length - 60)).map (·.tokens)).sum
          else (pre.map (·.tokens)).sum
        limit_timestamp := hit.timestamp }

/-- `PredictionAnalyzer.get_current_three_hour_metrics`: tokens, count
and per-minute rates over the trailing three hours of `now`. -/
def getCurrentThreeHourMetrics (now : Int) (msgs : List StoredMsg) :
    Int × ℕ × ℚ × ℚ :=
  let current := msgs.filter fun m =>
    match m.timestamp with
    | some ts => now - 3 * 3600 ≤ ts
    | none => false
  let tokens := (current.map (·.tokens)).sum
  let count := current.length
  (tokens, count,
   if current = [] then 0 else (tokens : ℚ) / 180,
   if current = [] then 0 else (count : ℚ) / 180)

/-- The prediction fields of `ComprehensiveMetrics` that
`calculate_prediction_metrics` assigns; `none` encodes the float
infinity the source stores for "no current activity". -/
structure PredictionOut where
  minutes_to_next_limit : Option ℚ
  tokens_to_next_limit : ℤ
  current_session_risk_score : ℚ
  hours_to_next_limit : Option ℚ
deriving DecidableEq, Repr

/-- `PredictionAnalyzer.calculate_prediction_metrics`. -/
def calculatePredictionMetrics (patterns : List FiveHourPattern)
    (now : Int) (msgs : List StoredMsg) : PredictionOut :=
  if patterns = [] then
    { minutes_to_next_limit := none, tokens_to_next_limit := usageLimitThreshold
      current_session_risk_score := 0, hours_to_next_limit := none }
  else
    let avg5hTokens := pyMeanQ (patterns.map fun p => (p.total_tokens : ℚ))
    let avgRate := pyMeanQ (patterns.map (·.avg_tokens_per_minute))
    let m3 := getCurrentThreeHourMetrics now msgs
    let current3hTokens := m3.1
    let currentRate := m3.2.2.1
    if avgRate > 0 ∧ currentRate > 0 then
      let danger := avg5hTokens * 0.8
      let pair :=
        if (current3hTokens : ℚ) ≥ danger then
          ((usageLimitThreshold : ℚ) / currentRate, (usageLimitThreshold : ℚ))
        else
          let tokensToDanger := danger - (current3hTokens : ℚ)
          (tokensToDanger / currentRate + 60, tokensToDanger + 60 * currentRate)
      let risk :=
        if avg5hTokens > 0 then min 100 ((current3hTokens : ℚ) / (avg5hTokens * 0.6) * 100)
        else 0
      { minutes_to_next_limit := some pair.1
        tokens_to_next_limit := pyInt pair.2
        current_session_risk_score := risk
        hours_to_next_limit := some (pair.1 / 60) }
    else
      { minutes_to_next_limit := none, tokens_to_next_limit := usageLimitThreshold
        current_session_risk_score := 0, hours_to_next_limit := none }

/-! ### Backtesting validator (`predictions.backtest_predictions`) -/

/-- A training-set five-hour pattern built inside the backtest loop. -/
structure TrainingPattern where
  total_tokens : Int
  total_messages : ℕ
  avg_tokens_per_minute : ℚ
deriving DecidableEq, Repr

/-- The per-hit pattern construction of the backtest loop. -/
def buildTrainingPatterns (msgs : List StoredMsg) (hits : List LimitHit) :
    List TrainingPattern :=
  hits.filterMap fun hit =>
    let pre := msgs.filter fun m =>
      match m.timestamp with
      | some ts => (hit.timestamp - 5 * 3600 ≤ ts) && (ts < hit.timestamp)
      | none => false
    if pre = [] then none
    else some
      { total_tokens := (pre.map (·.tokens)).sum
        total_messages := pre.length
        avg_tokens_per_minute := ((pre.map (·.tokens)).sum : ℚ) / (5 * 60) }

/-- One entry of `backtest_results`. -/
structure BacktestResult where
  test_idx : ℕ
  training_limits : ℕ
  predicted_minutes : ℚ
  actual_minutes : ℚ
  error_minutes : ℚ
  error_percentage : ℚ
  pred_3h_tokens : Int
  pred_rate : ℚ
  training_avg_tokens : ℚ
  target_timestamp : Int
deriving DecidableEq, Repr

/-- Body of one iteration of the backtest loop at index `idx`
(`for test_idx in range(1, len(limit_hits))`); `none` models the
`continue` / not-appended cases. -/
def backtestStep (msgs : List StoredMsg) (hits : List LimitHit) (idx : ℕ) :
    Option BacktestResult :=
  match hits[idx]? with
  | none => none
  | some target =>
    let training := hits.take idx
    let patterns := buildTrainingPatterns msgs training
    if patterns = [] then none
    else
      let trainingAvgTokens := pyMeanQ (patterns.map fun p => (p.total_tokens : ℚ))
      let trainingAvgRate := pyMeanQ (patterns.map (·.avg_tokens_per_minute))
      let predictionTime := target.timestamp - 3 * 3600
      let window := msgs.filter fun m =>
        match m.timestamp with
        | some ts => (predictionTime - 3 * 3600 ≤ ts) && (ts < predictionTime)
        | none => false
      if window = [] then none
      else
        let predTokens : Int := (window.map (·.tokens)).sum
        let predRate := (predTokens : ℚ) / 180
        if trainingAvgRate > 0 ∧ predRate > 0 then
          let danger := trainingAvgTokens * 0.8
          let predicted :=
            if (predTokens : ℚ) ≥ danger then (180 : ℚ)
            else (danger - (predTokens : ℚ)) / predRate + 60
          let actual := ((target.timestamp - predictionTime : ℤ) : ℚ) / 60
          let errMinutes := |predicted - actual|
          let errPercentage := if actual > 0 then errMinutes / actual * 100 else 100
          some
            { test_idx := idx
              training_limits := training.length
              predicted_minutes := predicted
              actual_minutes := actual
              error_minutes := errMinutes
              error_percentage := errPercentage
              pred_3h_tokens := predTokens
              pred_rate := predRate
              training_avg_tokens := trainingAvgTokens
              target_timestamp := target.timestamp }
        else none

/-- `predictions.backtest_predictions` (its list of recorded results;
the function itself only prints).  With fewer than 2 limit hits the
source returns before the loop. -/
def backtestPredictions (msgs : List StoredMsg) (hits : List LimitHit) :
    List BacktestResult :=
  if hits.length < 2 then []
  else (List.range' 1 (hits.length - 1)).filterMap (backtestStep msgs hits)

/-! ### Metrics report formatter, timing-arbitrage section
(`metrics.MetricsFormatter`) -/

/-- A value of the per-hour `analysis_data['hourly_patterns']` mapping.
`DataProcessor` stores a plain list of message costs per hour, while
`MetricsFormatter._calculate_hourly_efficiency` expects a dict with
`tokens` / `cost` / `count` entries; both shapes are represented so the
formatter's `isinstance(data, dict)` test can be expressed. -/
inductive HourData where
  | costs (cs : List ℚ)
  | tableRow (tokens : Int) (cost : ℚ) (count : ℕ)
deriving DecidableEq, Repr

/-- The `hourly_patterns` entry of the analysis bundle returned by
`calculate_comprehensive_metrics`: exactly the processor's per-hour
cost lists. -/
def analysisHourlyPatterns (st : ProcState) : List (Int × HourData) :=
  st.hourly_patterns.map fun p => (p.1, HourData.costs p.2)

/-- `MetricsFormatter._calculate_hourly_efficiency`: keep the hours
whose value is a dict with a positive `tokens` entry.  A list value
fails the `isinstance(data, dict)` test and is dropped. -/
def calculateHourlyEfficiency (hp : List (Int × HourData)) : List (Int × ℚ) :=
  hp.filterMap fun p =>
    match p.2 with
    | HourData.tableRow tokens cost _ =>
        if tokens > 0 then some (p.1, cost / (tokens : ℚ)) else none
    | HourData.costs _ => none

/-- Python `min(d, key=d.get)` over an association list (first minimum). -/
def pyMinByVal (l : List (Int × ℚ)) : Option (Int × ℚ) :=
  l.foldl (fun acc x =>
    match acc with
    | none => some x
    | some a => if x.2 < a.2 then some x else some a) none

/-- Python `max(d, key=d.get)` over an association list (first maximum). -/
def pyMaxByVal (l : List (Int × ℚ)) : Option (Int × ℚ) :=
  l.foldl (fun acc x =>
    match acc with
    | none => some x
    | some a => if a.2 < x.2 then some x else some a) none

/-- The observable outcome of
`MetricsFormatter._print_timing_arbitrage_metrics`. -/
inductive ArbitrageReport where
  | noHourlyData
  | insufficientData
  | bestWorst (best_hour : Int) (best_cost : ℚ) (worst_hour : Int) (worst_cost : ℚ)
deriving DecidableEq, Repr

/-- `MetricsFormatter._print_timing_arbitrage_metrics`, reduced to which
branch prints. -/
def printTimingArbitrageMetrics (hp : List (Int × HourData)) : ArbitrageReport :=
  if hp = [] then ArbitrageReport.noHourlyData
  else
    let eff := calculateHourlyEfficiency hp
    if eff = [] then ArbitrageReport.insufficientData
    else
      match pyMinByVal eff, pyMaxByVal eff with
      | some b, some w => ArbitrageReport.bestWorst b.1 b.2 w.1 w.2
      | _, _ => ArbitrageReport.insufficientData

/-- Hours that hold at least one message with positive tokens, from the
processor's own data (used to state when "2 hours have data"). -/
def hoursWithPositiveTokens (st : ProcState) : List Int :=
  ((st.all_messages.filter fun m => m.tokens > 0).map (·.hour)).dedup

/-! ### Public API surface (`__init__.py`, `cli.py` import statements) -/

/-- Top-level names defined by `predictions.py`. -/
def predictionsModuleDefs : List String :=
  ["print_predictions_only", "backtest_predictions"]

/-- Top-level names defined by `advanced_predictions.py`. -/
def advancedPredictionsModuleDefs : List String :=
  ["SessionContext", "PredictionResult", "BehavioralFeatures",
   "SessionContextClassifier", "ProbabilisticPredictor",
   "AdvancedPredictionEngine", "BehavioralFeatureExtractor"]

/-- Names `__init__.py` imports from `.predictions`. -/
def initImportsFromPredictions : List String :=
  ["print_predictions_only", "backtest_predictions", "print_advanced_predictions"]

/-- Names `__init__.py` imports from `.advanced_predictions`. -/
def initImportsFromAdvanced : List String :=
  ["AdvancedPredictionEngine", "AdvancedPredictionFormatter", "SessionContext",
   "PredictionResult", "BehavioralFeatures", "run_advanced_predictions",
   "get_recent_messages_for_advanced_prediction", "convert_legacy_patterns_to_advanced"]

/-- Names `cli.py` imports from `.predictions`. -/
def cliImportsFromPredictions : List String :=
  ["print_predictions_only", "print_advanced_predictions", "backtest_predictions"]

/-- A `from module import names` statement succeeds exactly when every
imported name is defined at top level in that module. -/
def importResolves (imports defs : List String) : Bool :=
  imports.all fun n => defs.contains n

/-- `import claude_cost` runs `__init__.py`, which performs both
`from`-imports; it succeeds only if both resolve. -/
def packageImportSucceeds : Bool :=
  importResolves initImportsFromPredictions predictionsModuleDefs &&
  importResolves initImportsFromAdvanced advancedPredictionsModuleDefs

/-! ### JSON-level line processing (`DataProcessor._process_line`)

A parsed JSON value; `json.loads` of a line yields one of these (or a
`JSONDecodeError`, represented by feeding `.error` into `processLine`).
Timestamp strings are modelled as decimal integers (seconds), so
`datetime.fromisoformat` becomes "parse an integer, else `ValueError`";
none of the settled claims depends on the concrete ISO-8601 grammar. -/

inductive PyVal where
  | null
  | bool (b : Bool)
  | int (n : Int)
  | str (s : String)
  | list (elems : List PyVal)
  | obj (fields : List (String × PyVal))

/-- Python `==` between an arbitrary value and a string constant. -/
def pyValEqStr (v : PyVal) (s : String) : Bool :=
  match v with
  | PyVal.str t => t = s
  | _ => false

/-- Python `key in value` for a string key: key membership for a dict,
substring test for a string, element equality for a list, and a
`TypeError` for the non-container types. -/
def pyContainsStr (v : PyVal) (k : String) : Except PyExc Bool :=
  match v with
  | PyVal.obj fields => Except.ok ((fields.map Prod.fst).contains k)
  | PyVal.str s => Except.ok ((s.splitOn k).length > 1)
  | PyVal.list elems => Except.ok (elems.any fun e => pyValEqStr e k)
  | _ => Except.error PyExc.typeError

/-- Python `value[key]` for a string key: dict lookup (`KeyError` when
absent), `TypeError` on every other type (string/list indices must be
integers). -/
def pySubscript (v : PyVal) (k : String) : Except PyExc PyVal :=
  match v with
  | PyVal.obj fields =>
      match fields.lookup k with
      | some x => Except.ok x
      | none => Except.error PyExc.keyError
  | _ => Except.error PyExc.typeError

/-- Python `value.get(key, default)`: only dicts have `.get`
(`AttributeError` otherwise). -/
def pyGetDefault (v : PyVal) (k : String) (dflt : PyVal) : Except PyExc PyVal :=
  match v with
  | PyVal.obj fields => Except.ok ((fields.lookup k).getD dflt)
  | _ => Except.error PyExc.attributeError

/-- Replace every occurrence of the character `Z` by `+00:00`
(`str.replace('Z', '+00:00')` for the one-character pattern). -/
def replaceZchars : List Char → List Char
  | [] => []
  | c :: rest =>
      if c = 'Z' then '+' :: '0' :: '0' :: ':' :: '0' :: '0' :: replaceZchars rest
      else c :: replaceZchars rest

/-- Python `value.replace('Z', '+00:00')`: only strings have
`.replace` (`AttributeError` otherwise) — the method at
`core.py:101`. -/
def pyReplaceZ (v : PyVal) : Except PyExc String :=
  match v with
  | PyVal.str s => Except.ok ⟨replaceZchars s.data⟩
  | _ => Except.error PyExc.attributeError

/-- ASCII lower-casing of one character (all the strings this code
compares case-insensitively are ASCII). -/
def pyCharLower (c : Char) : Char :=
  if 'A' ≤ c ∧ c ≤ 'Z' then Char.ofNat (c.toNat + 32) else c

/-- Python `value.lower()`: only strings have `.lower`
(`AttributeError` otherwise). -/
def pyLowerStr (v : PyVal) : Except PyExc String :=
  match v with
  | PyVal.str s => Except.ok ⟨s.data.map pyCharLower⟩
  | _ => Except.error PyExc.attributeError

/-- Accumulator-style decimal digit parser. -/
def parseDigitsAcc (acc : Nat) : List Char → Option Nat
  | [] => some acc
  | c :: rest =>
      if '0' ≤ c ∧ c ≤ '9' then
        parseDigitsAcc (acc * 10 + (c.toNat - '0'.toNat)) rest
      else none

/-- Parse an optionally signed decimal integer; `none` on anything
else. -/
def parseIntChars : List Char → Option Int
  | [] => none
  | '-' :: rest =>
      if rest = [] then none
      else (parseDigitsAcc 0 rest).map fun n => -(n : Int)
  | l => (parseDigitsAcc 0 l).map fun n => (n : Int)

/-- `datetime.fromisoformat`, over the integer-seconds timestamp model:
parse an integer or raise `ValueError`. -/
def parseTimestampStr (s : String) : Except PyExc Int :=
  match parseIntChars s.data with
  | some n => Except.ok n
  | none => Except.error PyExc.valueError

/-- A usage-dict token entry: token arithmetic needs a number
(`TypeError` otherwise; Python `bool` counts as an int). -/
def pyAsInt (v : PyVal) : Except PyExc Int :=
  match v with
  | PyVal.int n => Except.ok n
  | PyVal.bool b => Except.ok (if b then 1 else 0)
  | _ => Except.error PyExc.typeError

/-- The model identifier as used for pricing lookups.  A non-string
`model` value is collapsed to `"unknown"`: like any non-key it prices
at zero and this embedding does not depend on its identity. -/
def pyModelString (v : PyVal) : String :=
  match v with
  | PyVal.str s => s
  | _ => "unknown"

/-- `DataProcessor._extract_timestamp`: parse `data['timestamp']` when
present and record it; yields the timestamp for the rest of the line. -/
def extractTimestamp (st : ProcState) (data : PyVal) :
    Except PyExc (ProcState × Option Int) := do
  let present ← pyContainsStr data "timestamp"
  if present then
    let v ← pySubscript data "timestamp"
    let s ← pyReplaceZ v
    let t ← parseTimestampStr (s : String)
    pure ({ st with all_timestamps := st.all_timestamps ++ [t] }, some t)
  else
    pure (st, none)

/-- `DataProcessor._check_for_limit_hits` (metadata-only detection). -/
def checkForLimitHits (st : ProcState) (data : PyVal) (t : Int) :
    Except PyExc ProcState := do
  let hasMessage ← pyContainsStr data "message"
  if hasMessage then
    let messagev ← pySubscript data "message"
    match messagev with
    | PyVal.obj fields =>
        let errorCode := (fields.lookup "error_code").getD PyVal.null
        let status := (fields.lookup "status").getD PyVal.null
        let errorTypeRaw := (fields.lookup "error_type").getD (PyVal.str "")
        let errorType ← pyLowerStr errorTypeRaw
        let isUsageLimit :=
          pyValEqStr errorCode "quota_exceeded" ||
          pyValEqStr errorCode "usage_limit_exceeded" ||
          pyValEqStr status "limit_exceeded" ||
          pyValEqStr status "quota_exceeded" ||
          (errorType = "usage_limit" : Bool) ||
          (errorType = "quota_exceeded" : Bool) ||
          (!(fields.map Prod.fst).contains "usage" &&
            (fields.map Prod.fst).contains "error")
        match st.current_session with
        | some c =>
            if isUsageLimit then
              pure { st with limit_hits := st.limit_hits ++
                [⟨t, "metadata_detected_limit", c.total_tokens, c.messages.length⟩] }
            else pure st
        | none => pure st
    | _ => pure st
  else pure st

/-- `DataProcessor._process_usage_data` at the JSON level: check the
record shape, extract the token counts and model, then store and
categorize via the message-level pipeline above. -/
def processUsageDataJson (st : ProcState) (data : PyVal) (t : Option Int) :
    Except PyExc ProcState := do
  let ty ← pyGetDefault data "type" PyVal.null
  if !(pyValEqStr ty "assistant") then pure st
  else do
    let hasMessage ← pyContainsStr data "message"
    if !hasMessage then pure st
    else do
      let messagev ← pySubscript data "message"
      let hasUsage ← pyContainsStr messagev "usage"
      if !hasUsage then pure st
      else do
        let modelv ← pyGetDefault messagev "model" (PyVal.str "unknown")
        let usage ← pySubscript messagev "usage"
        let iv ← pyGetDefault usage "input_tokens" (PyVal.int 0)
        let i ← pyAsInt iv
        let ov ← pyGetDefault usage "output_tokens" (PyVal.int 0)
        let o ← pyAsInt ov
        let ccv ← pyGetDefault usage "cache_creation_input_tokens" (PyVal.int 0)
        let cc ← pyAsInt ccv
        let crv ← pyGetDefault usage "cache_read_input_tokens" (PyVal.int 0)
        let cr ← pyAsInt crv
        pure (processUsageMsg st
          { timestamp := t, model := pyModelString modelv
            input_tokens := i, output_tokens := o
            cache_creation_tokens := cc, cache_read_tokens := cr })

/-- The body of the `try` block of `_process_line`. -/
def processLineCore (st : ProcState) (data : PyVal) : Except PyExc ProcState := do
  let p ← extractTimestamp st data
  let st2 ←
    match p.2 with
    | some t => do
        let stB := handleSessionBoundary p.1 t
        checkForLimitHits stB data t
    | none => pure p.1
  processUsageDataJson st2 data p.2

/-- `DataProcessor._process_line`: the surrounding
`except (json.JSONDecodeError, KeyError, ValueError)` clause catches
exactly those three exception classes and skips the line; any other
exception (AttributeError, TypeError, ...) propagates and aborts the
whole run. -/
def processLine (st : ProcState) (parsed : Except PyExc PyVal) :
    Except PyExc ProcState :=
  match parsed with
  | Except.error _ => Except.ok st
  | Except.ok data =>
    match processLineCore st data with
    | Except.ok st2 => Except.ok st2
    | Except.error e =>
      match e with
      | PyExc.jsonDecodeError => Except.ok st
      | PyExc.keyError => Except.ok st
      | PyExc.valueError => Except.ok st
      | _ => Except.error e

/-- Process a whole file worth of already-split lines, stopping (as the
Python process would) at the first uncaught exception. -/
def processLines (st : ProcState) (lines : List (Except PyExc PyVal)) :
    Except PyExc ProcState :=
  lines.foldlM processLine st

/-! ### Advanced probabilistic predictor (`advanced_predictions.py`)

This layer is modelled over `ℝ` because the source uses `math.log`,
`math.sqrt` and `math.exp`; branching on real comparisons uses classical
decidability, so these definitions are `noncomputable`. -/

open Classical

/-- `math.log`: `ValueError` outside the positive reals. -/
noncomputable def pyLogR (x : ℝ) : Except PyExc ℝ :=
  if 0 < x then Except.ok (Real.log x) else Except.error PyExc.valueError

/-- `math.sqrt`: `ValueError` on negative input. -/
noncomputable def pySqrtR (x : ℝ) : Except PyExc ℝ :=
  if 0 ≤ x then Except.ok (Real.sqrt x) else Except.error PyExc.valueError

/-- Python float division: `ZeroDivisionError` on a zero denominator. -/
noncomputable def pyDivR (a b : ℝ) : Except PyExc ℝ :=
  if b = 0 then Except.error PyExc.zeroDivisionError else Except.ok (a / b)

/-- `statistics.mean` over floats: `StatisticsError` on the empty list. -/
noncomputable def pyMeanR (l : List ℝ) : Except PyExc ℝ :=
  if l = [] then Except.error PyExc.statisticsError
  else Except.ok (l.sum / l.length)

/-- `statistics.stdev` (sample standard deviation): `StatisticsError`
with fewer than two data points. -/
noncomputable def pyStdevR (l : List ℝ) : Except PyExc ℝ :=
  if l.length < 2 then Except.error PyExc.statisticsError
  else
    let m := l.sum / l.length
    Except.ok (Real.sqrt ((l.map fun x => (x - m) ^ 2).sum / ((l.length : ℝ) - 1)))

/-- The Abramowitz–Stegun error-function approximation defined inside
`_calculate_probability_within_horizon`. -/
noncomputable def erfApprox (x : ℝ) : Except PyExc ℝ := do
  let a1 : ℝ := 0.254829592
  let a2 : ℝ := -0.284496736
  let a3 : ℝ := 1.421413741
  let a4 : ℝ := -1.453152027
  let a5 : ℝ := 1.061405429
  let p : ℝ := 0.3275911
  let sign : ℝ := if 0 ≤ x then 1 else -1
  let y := |x|
  let t ← pyDivR 1 (1 + p * y)
  pure (sign * (1 - (((((a5 * t + a4) * t) + a3) * t + a2) * t + a1) * t *
    Real.exp (-y * y)))

/-- `ProbabilisticPredictor._calculate_probability_within_horizon`. -/
noncomputable def calculateProbabilityWithinHorizon
    (mean_prediction uncertainty : ℝ) (horizon : ℤ) : Except PyExc ℝ :=
  if uncertainty ≤ 0 then
    Except.ok (if mean_prediction ≤ (horizon : ℝ) then 1 else 0)
  else do
    let variance := uncertainty ^ 2
    let s1 ← pySqrtR (variance + mean_prediction ^ 2)
    let q1 ← pyDivR (mean_prediction ^ 2) s1
    let mu ← pyLogR q1
    let q2 ← pyDivR variance (mean_prediction ^ 2)
    let l2 ← pyLogR (q2 + 1)
    let sigma ← pySqrtR l2
    let lh ← pyLogR ((horizon : ℤ) : ℝ)
    let normalized ← pyDivR (lh - mu) sigma
    let s2 ← pySqrtR 2
    let arg ← pyDivR normalized s2
    let e ← erfApprox arg
    pure (min 1 (max 0 (0.5 * (1 + e))))

/-- `SessionContext` enum. -/
inductive SessionContext where
  | exploration
  | coding
  | debugging
  | optimization
  | unknown
deriving DecidableEq, Repr

/-- Per-context parameters of `_initialize_context_models`. -/
structure ContextModel where
  base_multiplier : ℝ
  variance_penalty : ℝ
  rate_sensitivity : ℝ

/-- `ProbabilisticPredictor._initialize_context_models`. -/
noncomputable def contextModels : SessionContext → ContextModel
  | SessionContext.exploration => ⟨1.5, 2.0, 0.8⟩
  | SessionContext.coding => ⟨1.0, 1.0, 1.2⟩
  | SessionContext.debugging => ⟨1.3, 1.5, 1.5⟩
  | SessionContext.optimization => ⟨0.8, 0.8, 0.9⟩
  | SessionContext.unknown => ⟨1.8, 2.5, 1.0⟩

/-- The `BehavioralFeatures` dataclass (real-valued features). -/
structure BehavioralFeatures where
  tokens_per_minute : ℝ
  messages_per_minute : ℝ
  cost_per_minute : ℝ
  token_rate_variance : ℝ
  message_gap_variance : ℝ
  rate_acceleration : ℝ
  complexity_trend : ℝ
  avg_message_size : ℝ
  cache_hit_rate : ℝ
  model_diversity : ℝ
  session_duration_minutes : ℝ
  time_since_last_message : ℝ
  hour_of_day : ℤ

/-- A historical-pattern dict as consumed by the predictor: both fields
are read with `.get` and a default, so each may be absent. -/
structure HistPattern where
  time_to_limit_minutes : Option ℝ
  avg_tokens_per_minute : Option ℝ

/-- The `PredictionResult` dataclass. -/
structure PredictionResult where
  mean_minutes : ℝ
  ci_lower : ℝ
  ci_upper : ℝ
  probability_within_hour : ℝ
  risk_score : ℝ
  context : SessionContext
  horizon_minutes : ℤ

/-- `ProbabilisticPredictor._calculate_base_prediction`.  Divisions in
the guarded branches have provably nonzero denominators, so plain
division is used there. -/
noncomputable def calculateBasePrediction (historical_patterns : List HistPattern)
    (features : BehavioralFeatures) : Except PyExc ℝ :=
  if historical_patterns = [] then Except.ok 180
  else do
    let n := historical_patterns.length
    let weights := (List.range n).map fun i => 1 / ((i : ℝ) + 1)
    let total_weight := weights.sum
    let weighted_times :=
      (historical_patterns.zip weights).map fun pw =>
        (pw.1.time_to_limit_minutes.getD 180) * pw.2 / total_weight
    let base_time := weighted_times.sum
    let adjusted ←
      if 0 < features.tokens_per_minute then do
        let historical_rates := historical_patterns.map fun p =>
          p.avg_tokens_per_minute.getD 0
        let avg_historical_rate ← pyMeanR (historical_rates.filter fun r => 0 < r)
        if 0 < avg_historical_rate then
          pure (base_time / (features.tokens_per_minute / avg_historical_rate))
        else pure base_time
      else pure base_time
    pure (max 5 adjusted)

/-- `ProbabilisticPredictor._calculate_uncertainty`; only called with a
non-empty pattern list, so `3.0 / len` cannot divide by zero. -/
noncomputable def calculateUncertainty (features : BehavioralFeatures)
    (mp : ContextModel) (historical_patterns : List HistPattern) :
    Except PyExc ℝ := do
  let historical_std ←
    if 1 < historical_patterns.length then
      pyStdevR (historical_patterns.map fun p => p.time_to_limit_minutes.getD 180)
    else pure 60
  let variance_adjustment := 1 + features.token_rate_variance * mp.variance_penalty
  let sample_size_adjustment :=
    max 1 (3 / (historical_patterns.length : ℝ))
  pure (min (historical_std * variance_adjustment * sample_size_adjustment) 300)

/-- `ProbabilisticPredictor._calculate_risk_score`. -/
noncomputable def calculateRiskScore (mean_prediction uncertainty : ℝ)
    (features : BehavioralFeatures) (context : SessionContext) (horizon : ℤ) :
    Except PyExc ℝ := do
  let q ← pyDivR ((horizon : ℝ) - mean_prediction) (horizon : ℝ)
  let time_risk := max 0 (q * 100)
  let uncertainty_risk := min 30 (uncertainty / 10)
  let context_multiplier : ℝ :=
    match context with
    | SessionContext.exploration => 1.2
    | SessionContext.coding => 1.0
    | SessionContext.debugging => 1.5
    | SessionContext.optimization => 0.8
    | SessionContext.unknown => 1.3
  let acceleration_risk :=
    if 0 < features.rate_acceleration then min 20 (features.rate_acceleration * 10)
    else 0
  pure (min 100 (max 0
    ((time_risk + uncertainty_risk + acceleration_risk) * context_multiplier)))

/-- `ProbabilisticPredictor._fallback_prediction`. -/
noncomputable def fallbackPrediction (horizon : ℤ) (context : SessionContext) :
    PredictionResult :=
  { mean_minutes := (horizon : ℝ) * 2
    ci_lower := (horizon : ℝ) * 0.5
    ci_upper := (horizon : ℝ) * 4
    probability_within_hour := 0.1
    risk_score := 20
    context := context
    horizon_minutes := horizon }

/-- `ProbabilisticPredictor.predict_time_to_limit`. -/
noncomputable def predictTimeToLimit (features : BehavioralFeatures)
    (context : SessionContext) (historical_patterns : List HistPattern)
    (horizon_minutes : ℤ) : Except PyExc PredictionResult :=
  if historical_patterns = [] then
    Except.ok (fallbackPrediction horizon_minutes context)
  else do
    let base ← calculateBasePrediction historical_patterns features
    let mp := contextModels context
    let adjusted := base * mp.base_multiplier
    let uncertainty ← calculateUncertainty features mp historical_patterns
    let lower := max 5 (adjusted - uncertainty)
    let upper := adjusted + uncertainty
    let prob ← calculateProbabilityWithinHorizon adjusted uncertainty horizon_minutes
    let risk ← calculateRiskScore adjusted uncertainty features context horizon_minutes
    pure
      { mean_minutes := adjusted
        ci_lower := lower
        ci_upper := upper
        probability_within_hour := prob
        risk_score := risk
        context := context
        horizon_minutes := horizon_minutes }

/-- The features record used to exhibit reachability of the
`StatisticsError` branch: a positive current token rate and neutral
values elsewhere. -/
noncomputable def c10features : BehavioralFeatures :=
  { tokens_per_minute := 1, messages_per_minute := 0, cost_per_minute := 0
    token_rate_variance := 0, message_gap_variance := 0
    rate_acceleration := 0, complexity_trend := 0
    avg_message_size := 0, cache_hit_rate := 0, model_diversity := 0
    session_duration_minutes := 0, time_since_last_message := 0
    hour_of_day := 12 }

/-- A historical pattern whose reported average rate is 0 and whose
time-to-limit key is absent. -/
def c10pattern : HistPattern :=
  { time_to_limit_minutes := none, avg_tokens_per_minute := some 0 }

/-! ### Concrete scenario data and statement helpers -/

/-- Total number of bucketized messages. -/
def bucketSum (st : ProcState) : ℕ :=
  st.token_bucket_small.length + st.token_bucket_medium.length +
  st.token_bucket_large.length + st.token_bucket_xlarge.length

/-- Bucket-range invariant: every stored bucket member satisfies its
bucket's token range. -/
def BucketInv (st : ProcState) : Prop :=
  (∀ x ∈ st.token_bucket_small, x.tokens ≤ 10000) ∧
  (∀ x ∈ st.token_bucket_medium, 10000 < x.tokens ∧ x.tokens ≤ 50000) ∧
  (∀ x ∈ st.token_bucket_large, 50000 < x.tokens ∧ x.tokens ≤ 200000) ∧
  (∀ x ∈ st.token_bucket_xlarge, 200000 < x.tokens)

/-- A usage record priced at zero: its model is not a pricing key. -/
def mysteryMsg : Msg :=
  { timestamp := some 0, model := "mystery-model"
    input_tokens := 500000, output_tokens := 0
    cache_creation_tokens := 0, cache_read_tokens := 0 }

/-- A small (100-token) usage record outside the pricing table. -/
def smallMystery : Msg :=
  { timestamp := some 0, model := "mystery-model"
    input_tokens := 100, output_tokens := 0
    cache_creation_tokens := 0, cache_read_tokens := 0 }

/-- The processor has an open session that started at `T` (the
invariant maintained between `_start_new_session` calls). -/
def OpenAt (st : ProcState) (T : Int) : Prop :=
  ∃ c : Session, st.current_session = some c ∧ c.start = T ∧
    st.session_start = some T

/-- A stored message with the given timestamp and token total. -/
def storedAt (t : Int) (tokens : Int) : StoredMsg :=
  { timestamp := some t, model := "claude-sonnet-4-20250514", cost := 0
    tokens := tokens, input_tokens := tokens, output_tokens := 0
    cache_creation_tokens := 0, cache_read_tokens := 0, hour := hourOf t }

/-- A limit hit at the given timestamp. -/
def hitAt (t : Int) : LimitHit :=
  ⟨t, "metadata_detected_limit", 0, 0⟩

/-- Five-hour pattern with 1000 tokens (and the consistent rate
1000/300 tokens per minute) used in the C3 scenario. -/
def c3pattern : FiveHourPattern :=
  { total_tokens := 1000, total_messages := 1, total_cost := 0
    avg_tokens_per_minute := 1000 / 300, final_hour_tokens := 1000
    limit_timestamp := 0 }

/-- The line `{"timestamp": 123}`: a syntactically valid JSON object
whose `timestamp` value is a number rather than a string. -/
def badTimestampLine : PyVal :=
  PyVal.obj [("timestamp", PyVal.int 123)]

/-- A well-formed assistant usage line (timestamps written as decimal
seconds in this embedding). -/
def goodLine : PyVal :=
  PyVal.obj
    [("timestamp", PyVal.str "1000"),
     ("type", PyVal.str "assistant"),
     ("message", PyVal.obj
        [("model", PyVal.str "claude-sonnet-4-20250514"),
         ("usage", PyVal.obj [("input_tokens", PyVal.int 100)])])]

/-! ## Supporting lemmas -/

lemma categorizeMessage_preserved (st : ProcState) (m : StoredMsg) :
    (categorizeMessage st m).total_cost = st.total_cost ∧
    (categorizeMessage st m).total_tokens = st.total_tokens ∧
    (categorizeMessage st m).total_input_tokens = st.total_input_tokens ∧
    (categorizeMessage st m).total_output_tokens = st.total_output_tokens ∧
    (categorizeMessage st m).total_cache_creation_tokens = st.total_cache_creation_tokens ∧
    (categorizeMessage st m).total_cache_read_tokens = st.total_cache_read_tokens ∧
    (categorizeMessage st m).all_sessions = st.all_sessions ∧
    (categorizeMessage st m).current_session = st.current_session ∧
    (categorizeMessage st m).session_start = st.session_start ∧
    (categorizeMessage st m).all_messages = st.all_messages := by
  unfold categorizeMessage
  cases m.timestamp <;> dsimp only <;> split_ifs <;> simp

lemma storeMessageData_effect (st : ProcState) (m : StoredMsg) :
    (storeMessageData st m).total_cost = st.total_cost + m.cost ∧
    (storeMessageData st m).total_tokens = st.total_tokens + m.tokens ∧
    (storeMessageData st m).total_input_tokens = st.total_input_tokens + m.input_tokens ∧
    (storeMessageData st m).total_output_tokens = st.total_output_tokens + m.output_tokens ∧
    (storeMessageData st m).total_cache_creation_tokens
      = st.total_cache_creation_tokens + m.cache_creation_tokens ∧
    (storeMessageData st m).total_cache_read_tokens
      = st.total_cache_read_tokens + m.cache_read_tokens ∧
    (storeMessageData st m).all_sessions = st.all_sessions ∧
    (storeMessageData st m).session_start = st.session_start ∧
    (storeMessageData st m).current_session.isSome = st.current_session.isSome ∧
    (storeMessageData st m).token_bucket_small = st.token_bucket_small ∧
    (storeMessageData st m).token_bucket_medium = st.token_bucket_medium ∧
    (storeMessageData st m).token_bucket_large = st.token_bucket_large ∧
    (storeMessageData st m).token_bucket_xlarge = st.token_bucket_xlarge := by
  unfold storeMessageData
  cases m.timestamp <;> cases st.current_session <;> dsimp only <;>
    (try split_ifs) <;> simp

lemma categorizeMessage_bucketSum (st : ProcState) (m : StoredMsg) :
    bucketSum (categorizeMessage st m) = bucketSum st + 1 := by
  unfold categorizeMessage bucketSum
  cases m.timestamp <;> dsimp only <;> split_ifs <;> simp <;> omega

lemma categorizeMessage_bucketInv (st : ProcState) (m : StoredMsg)
    (h : BucketInv st) : BucketInv (categorizeMessage st m) := by
  obtain ⟨h1, h2, h3, h4⟩ := h
  unfold categorizeMessage BucketInv
  cases m.timestamp <;> dsimp only <;> split_ifs <;>
    refine ⟨fun x hx => ?_, fun x hx => ?_, fun x hx => ?_, fun x hx => ?_⟩ <;>
    simp only [List.mem_append, List.mem_singleton] at hx <;>
    first
    | exact h1 x hx
    | exact h2 x hx
    | exact h3 x hx
    | exact h4 x hx
    | (rcases hx with hx | rfl
       · first | exact h1 x hx | exact h2 x hx | exact h3 x hx | exact h4 x hx
       · omega)

lemma handleSessionBoundary_preserved (st : ProcState) (t : Int) :
    (handleSessionBoundary st t).now = st.now ∧
    (handleSessionBoundary st t).token_bucket_small = st.token_bucket_small ∧
    (handleSessionBoundary st t).token_bucket_medium = st.token_bucket_medium ∧
    (handleSessionBoundary st t).token_bucket_large = st.token_bucket_large ∧
    (handleSessionBoundary st t).token_bucket_xlarge = st.token_bucket_xlarge ∧
    (handleSessionBoundary st t).all_messages = st.all_messages ∧
    (handleSessionBoundary st t).total_cost = st.total_cost ∧
    (handleSessionBoundary st t).total_tokens = st.total_tokens ∧
    (handleSessionBoundary st t).hourly_patterns = st.hourly_patterns := by
  unfold handleSessionBoundary startNewSession
  cases st.session_start <;> cases st.current_session <;> dsimp only <;>
    (try split_ifs) <;> simp

lemma storeMessageData_start_map (st : ProcState) (m : StoredMsg) :
    (storeMessageData st m).current_session.map Session.start
      = st.current_session.map Session.start := by
  unfold storeMessageData
  cases m.timestamp <;> cases st.current_session <;> dsimp only <;>
    (try split_ifs) <;> simp

lemma processUsageMsg_sessions (st : ProcState) (m : Msg) :
    (processUsageMsg st m).all_sessions = st.all_sessions := by
  unfold processUsageMsg
  rw [(categorizeMessage_preserved _ _).2.2.2.2.2.2.1,
    (storeMessageData_effect _ _).2.2.2.2.2.2.1]

lemma openAt_startNewSession (st : ProcState) (t : Int) :
    OpenAt (startNewSession st t) t :=
  ⟨⟨t, [], 0, 0⟩, rfl, rfl, rfl⟩

lemma openAt_processUsageMsg (st : ProcState) (m : Msg) (T : Int)
    (h : OpenAt st T) : OpenAt (processUsageMsg st m) T := by
  obtain ⟨c, hc, hcs, hss⟩ := h
  have hmap := storeMessageData_start_map st (mkStoredMsg m)
  rw [hc] at hmap
  obtain ⟨c2, hc2, hc2s⟩ :
      ∃ c2, (storeMessageData st (mkStoredMsg m)).current_session = some c2 ∧
        c2.start = c.start := by
    cases h2 : (storeMessageData st (mkStoredMsg m)).current_session with
    | none => rw [h2] at hmap; simp at hmap
    | some c2 => rw [h2] at hmap; simp at hmap; exact ⟨c2, rfl, hmap⟩
  have hcat := categorizeMessage_preserved (storeMessageData st (mkStoredMsg m)) (mkStoredMsg m)
  refine ⟨c2, ?_, by rw [hc2s, hcs], ?_⟩
  · unfold processUsageMsg; rw [hcat.2.2.2.2.2.2.2.1]; exact hc2
  · unfold processUsageMsg
    rw [hcat.2.2.2.2.2.2.2.2.1, (storeMessageData_effect _ _).2.2.2.2.2.2.2.1]
    exact hss

lemma handle_fresh (st : ProcState) (t : Int) (h1 : st.session_start = none)
    (h2 : st.current_session = none) :
    handleSessionBoundary st t = startNewSession st t := by
  unfold handleSessionBoundary
  rw [h1]; dsimp only; rw [h2]; rfl

lemma openAt_handle_le (st : ProcState) (T t : Int) (h : OpenAt st T)
    (hle : t - T ≤ 3600) : handleSessionBoundary st t = st := by
  obtain ⟨c, hc, hcs, hss⟩ := h
  unfold handleSessionBoundary
  rw [hss]; dsimp only
  rw [if_neg (by omega), hc]; rfl

lemma openAt_handle_gt (st : ProcState) (T t : Int) (h : OpenAt st T)
    (hgt : t - T > 3600) :
    (handleSessionBoundary st t).all_sessions.length = st.all_sessions.length + 1 ∧
    OpenAt (handleSessionBoundary st t) t := by
  obtain ⟨c, hc, hcs, hss⟩ := h
  unfold handleSessionBoundary
  rw [hss]; dsimp only
  rw [if_pos hgt, hc]
  exact ⟨by simp [startNewSession], openAt_startNewSession _ t⟩

lemma processRecord_fresh (st : ProcState) (m : Msg) (t : Int)
    (hm : m.timestamp = some t) (h1 : st.session_start = none)
    (h2 : st.current_session = none) :
    (processRecord st m).all_sessions = st.all_sessions ∧
    OpenAt (processRecord st m) t := by
  have h1' : ProcState.session_start
      { st with all_timestamps := st.all_timestamps ++ [t] } = none := h1
  have h2' : ProcState.current_session
      { st with all_timestamps := st.all_timestamps ++ [t] } = none := h2
  unfold processRecord
  rw [hm]; dsimp only
  rw [handle_fresh { st with all_timestamps := st.all_timestamps ++ [t] } t h1' h2']
  exact ⟨by rw [processUsageMsg_sessions]; rfl,
    openAt_processUsageMsg _ _ _ (openAt_startNewSession _ t)⟩

lemma processRecord_le (st : ProcState) (m : Msg) (t T : Int)
    (hm : m.timestamp = some t) (h : OpenAt st T) (hle : t - T ≤ 3600) :
    (processRecord st m).all_sessions = st.all_sessions ∧
    OpenAt (processRecord st m) T := by
  have h' : OpenAt { st with all_timestamps := st.all_timestamps ++ [t] } T := h
  unfold processRecord
  rw [hm]; dsimp only
  rw [openAt_handle_le { st with all_timestamps := st.all_timestamps ++ [t] } T t h' hle]
  exact ⟨by rw [processUsageMsg_sessions], openAt_processUsageMsg _ _ _ h'⟩

lemma processRecord_gap (st : ProcState) (m : Msg) (t T : Int)
    (hm : m.timestamp = some t) (h : OpenAt st T) (hgt : t - T > 3600) :
    (processRecord st m).all_sessions.length = st.all_sessions.length + 1 ∧
    OpenAt (processRecord st m) t := by
  have h' : OpenAt { st with all_timestamps := st.all_timestamps ++ [t] } T := h
  unfold processRecord
  rw [hm]; dsimp only
  obtain ⟨hlen, hopen⟩ :=
    openAt_handle_gt { st with all_timestamps := st.all_timestamps ++ [t] } T t h' hgt
  exact ⟨by rw [processUsageMsg_sessions]; exact hlen,
    openAt_processUsageMsg _ _ _ hopen⟩

lemma foldl_noGap (msgs : List Msg) (st : ProcState) (T : Int)
    (h : OpenAt st T)
    (hall : ∀ m ∈ msgs, ∃ t, m.timestamp = some t ∧ t - T ≤ 3600) :
    (msgs.foldl processRecord st).all_sessions = st.all_sessions ∧
    OpenAt (msgs.foldl processRecord st) T := by
  induction msgs generalizing st with
  | nil => exact ⟨rfl, h⟩
  | cons m rest ih =>
      obtain ⟨t, hmt, hle⟩ := hall m (List.mem_cons_self m rest)
      obtain ⟨hsess, hopen⟩ := processRecord_le st m t T hmt h hle
      obtain ⟨ihs, iho⟩ := ih (processRecord st m) hopen
        (fun x hx => hall x (List.mem_cons_of_mem m hx))
      exact ⟨by rw [List.foldl_cons, ihs, hsess], by rw [List.foldl_cons]; exact iho⟩

lemma finalize_len_isSome (st : ProcState) (c : Session)
    (hc : st.current_session = some c) :
    (finalizeSessions st).all_sessions.length = st.all_sessions.length + 1 := by
  unfold finalizeSessions
  rw [hc]; simp

lemma processUsageMsg_totals (st : ProcState) (m : Msg) :
    (processUsageMsg st m).total_cost = st.total_cost +
      calculateMessageCost m.model m.input_tokens m.output_tokens
        m.cache_creation_tokens m.cache_read_tokens ∧
    (processUsageMsg st m).total_tokens = st.total_tokens +
      (m.input_tokens + m.output_tokens + m.cache_creation_tokens + m.cache_read_tokens) ∧
    (processUsageMsg st m).total_input_tokens = st.total_input_tokens + m.input_tokens ∧
    (processUsageMsg st m).total_output_tokens = st.total_output_tokens + m.output_tokens ∧
    (processUsageMsg st m).total_cache_creation_tokens
      = st.total_cache_creation_tokens + m.cache_creation_tokens ∧
    (processUsageMsg st m).total_cache_read_tokens
      = st.total_cache_read_tokens + m.cache_read_tokens := by
  unfold processUsageMsg
  have hc := categorizeMessage_preserved (storeMessageData st (mkStoredMsg m)) (mkStoredMsg m)
  have hs := storeMessageData_effect st (mkStoredMsg m)
  exact ⟨by rw [hc.1, hs.1]; rfl, by rw [hc.2.1, hs.2.1]; rfl,
    by rw [hc.2.2.1, hs.2.2.1]; rfl, by rw [hc.2.2.2.1, hs.2.2.2.1]; rfl,
    by rw [hc.2.2.2.2.1, hs.2.2.2.2.1]; rfl,
    by rw [hc.2.2.2.2.2.1, hs.2.2.2.2.2.1]; rfl⟩

lemma storeMessageData_bucketSum (st : ProcState) (m : StoredMsg) :
    bucketSum (storeMessageData st m) = bucketSum st := by
  obtain ⟨-, -, -, -, -, -, -, -, -, h1, h2, h3, h4⟩ := storeMessageData_effect st m
  unfold bucketSum
  rw [h1, h2, h3, h4]

lemma storeMessageData_bucketInv (st : ProcState) (m : StoredMsg)
    (h : BucketInv st) : BucketInv (storeMessageData st m) := by
  obtain ⟨-, -, -, -, -, -, -, -, -, h1, h2, h3, h4⟩ := storeMessageData_effect st m
  unfold BucketInv at h ⊢
  rw [h1, h2, h3, h4]
  exact h

lemma handle_bucketSum (st : ProcState) (t : Int) :
    bucketSum (handleSessionBoundary st t) = bucketSum st := by
  obtain ⟨-, h1, h2, h3, h4, -, -, -, -⟩ := handleSessionBoundary_preserved st t
  unfold bucketSum
  rw [h1, h2, h3, h4]

lemma handle_bucketInv (st : ProcState) (t : Int) (h : BucketInv st) :
    BucketInv (handleSessionBoundary st t) := by
  obtain ⟨-, h1, h2, h3, h4, -, -, -, -⟩ := handleSessionBoundary_preserved st t
  unfold BucketInv at h ⊢
  rw [h1, h2, h3, h4]
  exact h

lemma processRecord_bucketSum (st : ProcState) (m : Msg) :
    bucketSum (processRecord st m) = bucketSum st + 1 := by
  unfold processRecord processUsageMsg
  cases m.timestamp <;> dsimp only
  · rw [categorizeMessage_bucketSum, storeMessageData_bucketSum]
  · rw [categorizeMessage_bucketSum, storeMessageData_bucketSum, handle_bucketSum]
    rfl

lemma processRecord_bucketInv (st : ProcState) (m : Msg) (h : BucketInv st) :
    BucketInv (processRecord st m) := by
  unfold processRecord processUsageMsg
  cases m.timestamp <;> dsimp only
  · exact categorizeMessage_bucketInv _ _ (storeMessageData_bucketInv _ _ h)
  · exact categorizeMessage_bucketInv _ _
      (storeMessageData_bucketInv _ _ (handle_bucketInv _ _ h))

lemma foldl_buckets (msgs : List Msg) (st : ProcState) :
    bucketSum (msgs.foldl processRecord st) = bucketSum st + msgs.length ∧
    (BucketInv st → BucketInv (msgs.foldl processRecord st)) := by
  induction msgs generalizing st with
  | nil => exact ⟨rfl, fun h => h⟩
  | cons m rest ih =>
      obtain ⟨ihs, ihi⟩ := ih (processRecord st m)
      refine ⟨?_, fun h => ?_⟩
      · rw [List.foldl_cons, ihs, processRecord_bucketSum]
        simp only [List.length_cons]
        omega
      · rw [List.foldl_cons]
        exact ihi (processRecord_bucketInv st m h)

lemma finalize_bucketSum (st : ProcState) :
    bucketSum (finalizeSessions st) = bucketSum st := by
  unfold finalizeSessions bucketSum
  cases st.current_session <;> simp

lemma finalize_bucketInv (st : ProcState) (h : BucketInv st) :
    BucketInv (finalizeSessions st) := by
  unfold finalizeSessions
  cases st.current_session <;> exact h

/-! ## Claim theorems -/

/-- C1: the per-message cost equals tokens/1e6 times the model's four
rates for each of the three pricing-table keys, is exactly 0 for any
other model identifier, and in all cases the message contributes its
full token counts to `total_tokens` and the per-type totals while
contributing exactly its (possibly zero) cost to `total_cost`. -/
theorem message_cost_spec (st : ProcState) (m : Msg) :
    (m.model = "claude-opus-4-20250514" →
      calculateMessageCost m.model m.input_tokens m.output_tokens
          m.cache_creation_tokens m.cache_read_tokens =
        (m.input_tokens : ℚ) / 1000000 * 15 + (m.output_tokens : ℚ) / 1000000 * 75 +
        (m.cache_creation_tokens : ℚ) / 1000000 * 18.75 +
        (m.cache_read_tokens : ℚ) / 1000000 * 1.5) ∧
    (m.model = "claude-sonnet-4-20250514" →
      calculateMessageCost m.model m.input_tokens m.output_tokens
          m.cache_creation_tokens m.cache_read_tokens =
        (m.input_tokens : ℚ) / 1000000 * 3 + (m.output_tokens : ℚ) / 1000000 * 15 +
        (m.cache_creation_tokens : ℚ) / 1000000 * 3.75 +
        (m.cache_read_tokens : ℚ) / 1000000 * 0.3) ∧
    (m.model = "claude-haiku-3.5-20241022" →
      calculateMessageCost m.model m.input_tokens m.output_tokens
          m.cache_creation_tokens m.cache_read_tokens =
        (m.input_tokens : ℚ) / 1000000 * 0.8 + (m.output_tokens : ℚ) / 1000000 * 4 +
        (m.cache_creation_tokens : ℚ) / 1000000 * 1 +
        (m.cache_read_tokens : ℚ) / 1000000 * 0.08) ∧
    (m.model ∉ pricingKeys →
      calculateMessageCost m.model m.input_tokens m.output_tokens
        m.cache_creation_tokens m.cache_read_tokens = 0) ∧
    (processUsageMsg st m).total_cost = st.total_cost +
      calculateMessageCost m.model m.input_tokens m.output_tokens
        m.cache_creation_tokens m.cache_read_tokens ∧
    (processUsageMsg st m).total_tokens = st.total_tokens +
      (m.input_tokens + m.output_tokens + m.cache_creation_tokens + m.cache_read_tokens) ∧
    (processUsageMsg st m).total_input_tokens = st.total_input_tokens + m.input_tokens ∧
    (processUsageMsg st m).total_output_tokens = st.total_output_tokens + m.output_tokens ∧
    (processUsageMsg st m).total_cache_creation_tokens
      = st.total_cache_creation_tokens + m.cache_creation_tokens ∧
    (processUsageMsg st m).total_cache_read_tokens
      = st.total_cache_read_tokens + m.cache_read_tokens := by
  have ht := processUsageMsg_totals st m
  refine ⟨?_, ?_, ?_, ?_, ht.1, ht.2.1, ht.2.2.1, ht.2.2.2.1, ht.2.2.2.2.1, ht.2.2.2.2.2⟩
  · intro h; rw [h]; unfold calculateMessageCost PRICING
    rw [if_pos rfl]; norm_num
  · intro h; rw [h]; unfold calculateMessageCost PRICING
    rw [if_neg (by decide), if_pos rfl]; norm_num
  · intro h; rw [h]; unfold calculateMessageCost PRICING
    rw [if_neg (by decide), if_neg (by decide), if_pos rfl]; norm_num
  · intro h
    simp only [pricingKeys, List.mem_cons, List.not_mem_nil, or_false, not_or] at h
    obtain ⟨h1, h2, h3⟩ := h
    unfold calculateMessageCost PRICING
    rw [if_neg h1, if_neg h2, if_neg h3]

/-- Witness for C1 at the spec's own example: an unknown model with
500,000 input tokens costs exactly 0 but still adds 500,000 to the
token totals. -/
theorem message_cost_spec_witness :
    mysteryMsg.model ∉ pricingKeys ∧
    calculateMessageCost mysteryMsg.model mysteryMsg.input_tokens
      mysteryMsg.output_tokens mysteryMsg.cache_creation_tokens
      mysteryMsg.cache_read_tokens = 0 ∧
    (processUsageMsg (initState 0) mysteryMsg).total_cost = 0 ∧
    (processUsageMsg (initState 0) mysteryMsg).total_tokens = 500000 ∧
    (processUsageMsg (initState 0) mysteryMsg).total_input_tokens = 500000 := by
  have h := message_cost_spec (initState 0) mysteryMsg
  have hnot : mysteryMsg.model ∉ pricingKeys := by decide
  have hzero := h.2.2.2.1 hnot
  refine ⟨hnot, hzero, ?_, ?_, ?_⟩
  · rw [h.2.2.2.2.1, hzero]; norm_num [initState]
  · rw [h.2.2.2.2.2.1]; norm_num [initState, mysteryMsg]
  · rw [h.2.2.2.2.2.2.1]; norm_num [initState, mysteryMsg]

/-- C5: the package initializer and the CLI import
`print_advanced_predictions` from the predictions module and the
advanced-engine helpers from the advanced-predictions module, but those
modules never define these names, so `import claude_cost` (and hence
every CLI invocation) fails with an `ImportError` instead of exposing
the documented API. -/
theorem public_api_missing_symbols :
    packageImportSucceeds = false ∧
    "print_advanced_predictions" ∈ initImportsFromPredictions ∧
    "print_advanced_predictions" ∉ predictionsModuleDefs ∧
    "print_advanced_predictions" ∈ cliImportsFromPredictions ∧
    "AdvancedPredictionFormatter" ∈ initImportsFromAdvanced ∧
    "AdvancedPredictionFormatter" ∉ advancedPredictionsModuleDefs ∧
    "run_advanced_predictions" ∈ initImportsFromAdvanced ∧
    "run_advanced_predictions" ∉ advancedPredictionsModuleDefs ∧
    "get_recent_messages_for_advanced_prediction" ∈ initImportsFromAdvanced ∧
    "get_recent_messages_for_advanced_prediction" ∉ advancedPredictionsModuleDefs ∧
    "convert_legacy_patterns_to_advanced" ∈ initImportsFromAdvanced ∧
    "convert_legacy_patterns_to_advanced" ∉ advancedPredictionsModuleDefs := by
  decide

/-- C2 counterexample: messages at 0, 3000 and 6000 seconds have all
consecutive gaps at most 3600 seconds, yet the run produces two
sessions, because the boundary test compares against the session start
(0), not the previous message (3000). -/
theorem session_gap_counterexample :
    sessionCount 0 [usageAt 0, usageAt 3000, usageAt 6000] = 2 ∧
    (usageAt 0).timestamp = some 0 ∧
    (usageAt 3000).timestamp = some 3000 ∧
    (usageAt 6000).timestamp = some 6000 ∧
    (3000 : Int) - 0 ≤ 3600 ∧ (6000 : Int) - 3000 ≤ 3600 := by
  decide

/-- C2 amended: with a session open, an incoming timestamped message is
placed in a new session exactly when its timestamp exceeds the OPEN
SESSION'S START timestamp by more than 3600 seconds (not the previous
message's timestamp); in particular messages at T, T+1800, T+3000 land
in one session and messages at T, T+3601 land in two. -/
theorem session_boundary_amended :
    (∀ (st : ProcState) (c : Session) (t : Int),
        st.current_session = some c → st.session_start = some c.start →
        ((handleSessionBoundary st t).all_sessions.length
            = st.all_sessions.length + 1 ↔ t - c.start > 3600)) ∧
    (∀ T : Int, sessionCount 0 [usageAt T, usageAt (T + 1800), usageAt (T + 3000)] = 1) ∧
    (∀ T : Int, sessionCount 0 [usageAt T, usageAt (T + 3601)] = 2) := by
  refine ⟨?_, ?_, ?_⟩
  · intro st c t h1 h2
    constructor
    · intro hlen
      by_contra hn
      rw [openAt_handle_le st c.start t ⟨c, h1, rfl, h2⟩ (by omega)] at hlen
      omega
    · intro hgt
      exact (openAt_handle_gt st c.start t ⟨c, h1, rfl, h2⟩ hgt).1
  · intro T
    unfold sessionCount runProcessor
    rw [List.foldl_cons]
    obtain ⟨hs1, ho1⟩ := processRecord_fresh (initState 0) (usageAt T) T rfl rfl rfl
    obtain ⟨hs2, ho2⟩ := foldl_noGap [usageAt (T + 1800), usageAt (T + 3000)]
      (processRecord (initState 0) (usageAt T)) T ho1 (by
        intro m hm
        simp only [List.mem_cons, List.not_mem_nil, or_false] at hm
        rcases hm with rfl | rfl
        · exact ⟨T + 1800, rfl, by omega⟩
        · exact ⟨T + 3000, rfl, by omega⟩)
    obtain ⟨c, hc, -, -⟩ := ho2
    rw [finalize_len_isSome _ c hc, hs2, hs1]
    rfl
  · intro T
    unfold sessionCount runProcessor
    rw [List.foldl_cons, List.foldl_cons, List.foldl_nil]
    obtain ⟨hs1, ho1⟩ := processRecord_fresh (initState 0) (usageAt T) T rfl rfl rfl
    obtain ⟨hlen2, ho2⟩ := processRecord_gap (processRecord (initState 0) (usageAt T))
      (usageAt (T + 3601)) (T + 3601) T rfl ho1 (by omega)
    obtain ⟨c, hc, -, -⟩ := ho2
    rw [finalize_len_isSome _ c hc, hlen2, hs1]
    rfl

/-- Witness for C2 amended at a concrete state and concrete offsets. -/
theorem session_boundary_amended_witness :
    (startNewSession (initState 0) 0).current_session = some ⟨0, [], 0, 0⟩ ∧
    ((handleSessionBoundary (startNewSession (initState 0) 0) 5000).all_sessions.length
        = (startNewSession (initState 0) 0).all_sessions.length + 1 ↔
      (5000 : Int) - (⟨0, [], 0, 0⟩ : Session).start > 3600) ∧
    sessionCount 0 [usageAt 7, usageAt (7 + 1800), usageAt (7 + 3000)] = 1 ∧
    sessionCount 0 [usageAt 7, usageAt (7 + 3601)] = 2 :=
  ⟨rfl,
   session_boundary_amended.1 (startNewSession (initState 0) 0) ⟨0, [], 0, 0⟩ 5000 rfl rfl,
   session_boundary_amended.2.1 7,
   session_boundary_amended.2.2 7⟩

/-- C7: every ingested usage message lands in exactly one token-size
bucket — small iff at most 10,000 tokens, medium iff between 10,001 and
50,000, large iff between 50,001 and 200,000, xlarge iff above
200,000 — so the four bucket counts sum to the number of usage messages
ingested. -/
theorem token_buckets_partition (now : Int) (msgs : List Msg) :
    bucketSum (runProcessor now msgs) = msgs.length ∧
    (∀ x ∈ (runProcessor now msgs).token_bucket_small, x.tokens ≤ 10000) ∧
    (∀ x ∈ (runProcessor now msgs).token_bucket_medium,
        10000 < x.tokens ∧ x.tokens ≤ 50000) ∧
    (∀ x ∈ (runProcessor now msgs).token_bucket_large,
        50000 < x.tokens ∧ x.tokens ≤ 200000) ∧
    (∀ x ∈ (runProcessor now msgs).token_bucket_xlarge, 200000 < x.tokens) := by
  obtain ⟨hsum, hinvf⟩ := foldl_buckets msgs (initState now)
  have hinv0 : BucketInv (initState now) :=
    ⟨fun x hx => absurd hx (List.not_mem_nil x),
     fun x hx => absurd hx (List.not_mem_nil x),
     fun x hx => absurd hx (List.not_mem_nil x),
     fun x hx => absurd hx (List.not_mem_nil x)⟩
  have hinv := finalize_bucketInv _ (hinvf hinv0)
  refine ⟨?_, hinv.1, hinv.2.1, hinv.2.2.1, hinv.2.2.2⟩
  unfold runProcessor
  rw [finalize_bucketSum, hsum]
  simp [bucketSum, initState]

/-- Witness for C7: a 100-token message lands in the small bucket and a
500,000-token message in the xlarge bucket, with the counts summing to
the number of messages. -/
theorem token_buckets_partition_witness :
    bucketSum (runProcessor 0 [smallMystery, mysteryMsg]) = 2 ∧
    mkStoredMsg smallMystery ∈
      (runProcessor 0 [smallMystery, mysteryMsg]).token_bucket_small ∧
    (mkStoredMsg smallMystery).tokens ≤ 10000 ∧
    mkStoredMsg mysteryMsg ∈
      (runProcessor 0 [smallMystery, mysteryMsg]).token_bucket_xlarge ∧
    200000 < (mkStoredMsg mysteryMsg).tokens := by
  have h := token_buckets_partition 0 [smallMystery, mysteryMsg]
  have hm1 : mkStoredMsg smallMystery ∈
      (runProcessor 0 [smallMystery, mysteryMsg]).token_bucket_small := by decide
  have hm2 : mkStoredMsg mysteryMsg ∈
      (runProcessor 0 [smallMystery, mysteryMsg]).token_bucket_xlarge := by decide
  exact ⟨by rw [h.1]; rfl, hm1, h.2.1 _ hm1, hm2, h.2.2.2.2 _ hm2⟩

lemma list_sum_map_div (l : List ℚ) (c : ℚ) :
    (l.map fun x => x / c).sum = l.sum / c := by
  induction l with
  | nil => simp
  | cons a t ih => simp [ih, add_div]

lemma avgRate_eq (patterns : List FiveHourPattern)
    (hcons : ∀ p ∈ patterns, p.avg_tokens_per_minute = (p.total_tokens : ℚ) / 300) :
    pyMeanQ (patterns.map (·.avg_tokens_per_minute))
      = pyMeanQ (patterns.map fun p => (p.total_tokens : ℚ)) / 300 := by
  unfold pyMeanQ
  rw [List.map_congr_left hcons]
  rw [show (patterns.map fun p => (p.total_tokens : ℚ) / 300)
        = (patterns.map fun p => (p.total_tokens : ℚ)).map (fun x => x / 300) by
      rw [List.map_map]; rfl]
  rw [list_sum_map_div, List.length_map, List.length_map]
  ring

lemma current3h_tokens_nonneg (now : Int) (msgs : List StoredMsg)
    (hnn : ∀ m ∈ msgs, 0 ≤ m.tokens) :
    0 ≤ (getCurrentThreeHourMetrics now msgs).1 := by
  unfold getCurrentThreeHourMetrics
  dsimp only
  apply List.sum_nonneg
  intro x hx
  simp only [List.mem_map] at hx
  obtain ⟨m, hm, rfl⟩ := hx
  exact hnn m (List.mem_of_mem_filter hm)

/-- C3 counterexample: with one historical pattern of 1000 tokens and a
current window of 100 tokens, the code stores
`int(700 + 60*(100/180)) = 733` in `tokens_to_next_limit`, which is not
the claimed exact value `700 + 60*(100/180) = 2200/3`. -/
theorem prediction_truncation_counterexample :
    (calculatePredictionMetrics [c3pattern] 1000000
        [storedAt 1000000 100]).tokens_to_next_limit = 733 ∧
    ((733 : ℚ) ≠ (0.8 * 1000 - 100) + 60 * (100 / 180)) := by
  constructor
  · norm_num [calculatePredictionMetrics, pyMeanQ, getCurrentThreeHourMetrics,
      c3pattern, storedAt, pyInt, usageLimitThreshold]
  · norm_num

/-- C3 amended: with at least one pattern and positive historical and
current rates, the danger branch yields 9,000,000/rate minutes and
9,000,000 tokens; otherwise minutes = deficit/rate + 60 and the stored
token figure is the TRUNCATION to an integer of deficit + 60*rate; the
risk score is min(100, current/(0.6*mean)*100) and lies in [0,100]
(for nonnegative ingested token counts); hours = minutes/60.  In every
other case minutes and hours are infinite, tokens = 9,000,000 and the
risk score is 0. -/
theorem prediction_metrics_amended :
    (∀ (patterns : List FiveHourPattern) (now : Int) (msgs : List StoredMsg),
      patterns ≠ [] →
      (∀ p ∈ patterns, p.avg_tokens_per_minute = (p.total_tokens : ℚ) / 300) →
      0 < pyMeanQ (patterns.map (·.avg_tokens_per_minute)) →
      0 < (getCurrentThreeHourMetrics now msgs).2.2.1 →
      (∀ m ∈ msgs, 0 ≤ m.tokens) →
      ((((getCurrentThreeHourMetrics now msgs).1 : ℚ) ≥
          0.8 * pyMeanQ (patterns.map fun p => (p.total_tokens : ℚ)) →
        (calculatePredictionMetrics patterns now msgs).minutes_to_next_limit
            = some (9000000 / (getCurrentThreeHourMetrics now msgs).2.2.1) ∧
        (calculatePredictionMetrics patterns now msgs).tokens_to_next_limit
            = 9000000) ∧
       (((getCurrentThreeHourMetrics now msgs).1 : ℚ) <
          0.8 * pyMeanQ (patterns.map fun p => (p.total_tokens : ℚ)) →
        (calculatePredictionMetrics patterns now msgs).minutes_to_next_limit
            = some ((0.8 * pyMeanQ (patterns.map fun p => (p.total_tokens : ℚ))
                - ((getCurrentThreeHourMetrics now msgs).1 : ℚ))
                / (getCurrentThreeHourMetrics now msgs).2.2.1 + 60) ∧
        (calculatePredictionMetrics patterns now msgs).tokens_to_next_limit
            = pyInt ((0.8 * pyMeanQ (patterns.map fun p => (p.total_tokens : ℚ))
                - ((getCurrentThreeHourMetrics now msgs).1 : ℚ))
                + 60 * (getCurrentThreeHourMetrics now msgs).2.2.1)) ∧
       (calculatePredictionMetrics patterns now msgs).current_session_risk_score
          = min 100 ((((getCurrentThreeHourMetrics now msgs).1 : ℚ))
              / (0.6 * pyMeanQ (patterns.map fun p => (p.total_tokens : ℚ))) * 100) ∧
       0 ≤ (calculatePredictionMetrics patterns now msgs).current_session_risk_score ∧
       (calculatePredictionMetrics patterns now msgs).current_session_risk_score ≤ 100 ∧
       (calculatePredictionMetrics patterns now msgs).hours_to_next_limit
          = (calculatePredictionMetrics patterns now msgs).minutes_to_next_limit.map
              (fun x => x / 60))) ∧
    (∀ (patterns : List FiveHourPattern) (now : Int) (msgs : List StoredMsg),
      patterns = [] ∨
        ¬(0 < pyMeanQ (patterns.map (·.avg_tokens_per_minute)) ∧
          0 < (getCurrentThreeHourMetrics now msgs).2.2.1) →
      calculatePredictionMetrics patterns now msgs =
        { minutes_to_next_limit := none, tokens_to_next_limit := 9000000
          current_session_risk_score := 0, hours_to_next_limit := none }) := by
  constructor
  · intro patterns now msgs hne hcons hrate hcur hnn
    have htok : 0 ≤ (getCurrentThreeHourMetrics now msgs).1 :=
      current3h_tokens_nonneg now msgs hnn
    have hAeq := avgRate_eq patterns hcons
    rw [hAeq] at hrate
    have havg : 0 < pyMeanQ (patterns.map fun p => (p.total_tokens : ℚ)) := by
      linarith
    set A := pyMeanQ (patterns.map fun p => (p.total_tokens : ℚ)) with hAdef
    set tok := (getCurrentThreeHourMetrics now msgs).1 with htokdef
    set rate := (getCurrentThreeHourMetrics now msgs).2.2.1 with hratedef
    unfold calculatePredictionMetrics
    rw [if_neg hne]
    dsimp only
    rw [if_pos ⟨show pyMeanQ (patterns.map (·.avg_tokens_per_minute)) > 0 from by
        rw [hAeq]; exact hrate, hcur⟩,
      if_pos havg]
    refine ⟨fun hge => ?_, fun hlt => ?_, ?_, ?_, ?_, ?_⟩
    · rw [if_pos (show (tok : ℚ) ≥ A * 0.8 by rw [mul_comm]; exact hge)]
      constructor
      · dsimp only; norm_num [usageLimitThreshold]
      · dsimp only; norm_num [usageLimitThreshold, pyInt]
    · rw [if_neg (show ¬((tok : ℚ) ≥ A * 0.8) by rw [mul_comm]; exact not_le.mpr hlt)]
      constructor
      · dsimp only
        rw [Option.some_inj]
        ring
      · dsimp only
        congr 1
        ring
    · dsimp only
      rw [mul_comm A (0.6 : ℚ)]
    · dsimp only
      refine le_min (by norm_num) ?_
      have h1 : (0 : ℚ) ≤ (tok : ℚ) := by exact_mod_cast htok
      have h2 : (0 : ℚ) ≤ A * 0.6 := by positivity
      positivity
    · dsimp only
      exact min_le_left _ _
    · dsimp only
      rfl
  · intro patterns now msgs h
    unfold calculatePredictionMetrics
    rcases h with h | h
    · rw [if_pos h]; rfl
    · by_cases hne : patterns = []
      · rw [if_pos hne]; rfl
      · rw [if_neg hne]
        dsimp only
        rw [if_neg h]
        rfl

/-- Witness for C3 amended at one pattern of 1000 tokens and a current
window of 100 tokens. -/
theorem prediction_metrics_amended_witness :
    0 < pyMeanQ ([c3pattern].map (·.avg_tokens_per_minute)) ∧
    0 < (getCurrentThreeHourMetrics 1000000 [storedAt 1000000 100]).2.2.1 ∧
    0 ≤ (calculatePredictionMetrics [c3pattern] 1000000
        [storedAt 1000000 100]).current_session_risk_score ∧
    (calculatePredictionMetrics [c3pattern] 1000000
        [storedAt 1000000 100]).current_session_risk_score ≤ 100 ∧
    (calculatePredictionMetrics [c3pattern] 1000000
        [storedAt 1000000 100]).minutes_to_next_limit
      = some ((0.8 * pyMeanQ ([c3pattern].map fun p => (p.total_tokens : ℚ))
          - (((getCurrentThreeHourMetrics 1000000 [storedAt 1000000 100]).1 : ℚ)))
          / (getCurrentThreeHourMetrics 1000000 [storedAt 1000000 100]).2.2.1 + 60) := by
  have hrate : 0 < pyMeanQ ([c3pattern].map (·.avg_tokens_per_minute)) := by
    norm_num [pyMeanQ, c3pattern]
  have hcur : 0 < (getCurrentThreeHourMetrics 1000000 [storedAt 1000000 100]).2.2.1 := by
    norm_num [getCurrentThreeHourMetrics, storedAt, List.filter]
  have h := prediction_metrics_amended.1 [c3pattern] 1000000 [storedAt 1000000 100]
    (List.cons_ne_nil _ _)
    (by intro p hp
        simp only [List.mem_cons, List.not_mem_nil, or_false] at hp
        subst hp
        norm_num [c3pattern])
    hrate hcur
    (by intro m hm
        simp only [List.mem_cons, List.not_mem_nil, or_false] at hm
        subst hm
        norm_num [storedAt])
  exact ⟨hrate, hcur, h.2.2.2.1, h.2.2.2.2.1,
    (h.2.1 (by norm_num [getCurrentThreeHourMetrics, pyMeanQ, c3pattern, storedAt,
      List.filter])).1⟩

/-- C4 counterexample: with two limit hits whose training pattern and
simulated 3-hour window are both non-empty but consist of 0-token
messages, the backtester produces no test at all (the rate-positivity
guard fails), so nothing is reported for the event. -/
theorem backtest_counterexample :
    backtestPredictions [storedAt 95000 0, storedAt 180000 0]
      [hitAt 100000, hitAt 200000] = [] ∧
    buildTrainingPatterns [storedAt 95000 0, storedAt 180000 0]
      ([hitAt 100000, hitAt 200000].take 1) ≠ [] ∧
    ([storedAt 95000 0, storedAt 180000 0].filter fun m =>
      match m.timestamp with
      | some ts => ((hitAt 200000).timestamp - 3 * 3600 - 3 * 3600 ≤ ts) &&
          (ts < (hitAt 200000).timestamp - 3 * 3600)
      | none => false) ≠ [] := by
  refine ⟨?_, by decide, by decide⟩
  norm_num [backtestPredictions, backtestStep, buildTrainingPatterns, pyMeanQ,
    hitAt, storedAt, List.range', List.filter, List.filterMap, List.take]

/-- C4 amended: for every event at index N ≥ 1 whose training-pattern
set and simulated 3-hour window are non-empty AND whose training-average
rate and simulated rate are both positive, the backtester produces
exactly one result for N, trained only on `hits.take N`, with actual
minutes exactly 180 and predicted minutes 180 when the simulated tokens
reach 0.8 times the training average and deficit/rate + 60 otherwise;
with fewer than 2 limit hits no test is produced at all. -/
theorem backtest_amended :
    (∀ (msgs : List StoredMsg) (hits : List LimitHit) (idx : ℕ)
        (target : LimitHit) (patterns : List TrainingPattern)
        (window : List StoredMsg),
      1 ≤ idx → hits[idx]? = some target →
      patterns = buildTrainingPatterns msgs (hits.take idx) →
      window = (msgs.filter fun m =>
        match m.timestamp with
        | some ts => (target.timestamp - 3 * 3600 - 3 * 3600 ≤ ts) &&
            (ts < target.timestamp - 3 * 3600)
        | none => false) →
      patterns ≠ [] → window ≠ [] →
      0 < pyMeanQ (patterns.map (·.avg_tokens_per_minute)) →
      0 < ((((window.map (·.tokens)).sum : ℤ) : ℚ) / 180) →
      ∃ r : BacktestResult,
        backtestStep msgs hits idx = some r ∧
        r ∈ backtestPredictions msgs hits ∧
        r.test_idx = idx ∧
        r.training_limits = idx ∧
        r.actual_minutes = 180 ∧
        r.pred_3h_tokens = (window.map (·.tokens)).sum ∧
        r.predicted_minutes =
          (if (((window.map (·.tokens)).sum : ℤ) : ℚ) ≥
              0.8 * pyMeanQ (patterns.map fun p => (p.total_tokens : ℚ))
           then (180 : ℚ)
           else (0.8 * pyMeanQ (patterns.map fun p => (p.total_tokens : ℚ))
              - (((window.map (·.tokens)).sum : ℤ) : ℚ))
              / ((((window.map (·.tokens)).sum : ℤ) : ℚ) / 180) + 60)) ∧
    (∀ (msgs : List StoredMsg) (hits : List LimitHit),
      hits.length < 2 → backtestPredictions msgs hits = []) := by
  constructor
  · intro msgs hits idx target patterns window h1 hgt hpats hwin hpne hwne hrate hpred
    subst hpats
    subst hwin
    obtain ⟨hlt, -⟩ := List.getElem?_eq_some.mp hgt
    have hstep : ∃ r : BacktestResult,
        backtestStep msgs hits idx = some r ∧
        r.test_idx = idx ∧
        r.training_limits = (hits.take idx).length ∧
        r.actual_minutes =
          ((target.timestamp - (target.timestamp - 3 * 3600) : ℤ) : ℚ) / 60 ∧
        r.pred_3h_tokens = (((msgs.filter fun m =>
          match m.timestamp with
          | some ts => (target.timestamp - 3 * 3600 - 3 * 3600 ≤ ts) &&
              (ts < target.timestamp - 3 * 3600)
          | none => false).map (·.tokens)).sum : ℤ) ∧
        r.predicted_minutes =
          (if ((((msgs.filter fun m =>
              match m.timestamp with
              | some ts => (target.timestamp - 3 * 3600 - 3 * 3600 ≤ ts) &&
                  (ts < target.timestamp - 3 * 3600)
              | none => false).map (·.tokens)).sum : ℤ) : ℚ) ≥
              pyMeanQ ((buildTrainingPatterns msgs (hits.take idx)).map
                fun p => (p.total_tokens : ℚ)) * 0.8
           then (180 : ℚ)
           else (pyMeanQ ((buildTrainingPatterns msgs (hits.take idx)).map
                fun p => (p.total_tokens : ℚ)) * 0.8
              - ((((msgs.filter fun m =>
                  match m.timestamp with
                  | some ts => (target.timestamp - 3 * 3600 - 3 * 3600 ≤ ts) &&
                      (ts < target.timestamp - 3 * 3600)
                  | none => false).map (·.tokens)).sum : ℤ) : ℚ))
              / (((((msgs.filter fun m =>
                  match m.timestamp with
                  | some ts => (target.timestamp - 3 * 3600 - 3 * 3600 ≤ ts) &&
                      (ts < target.timestamp - 3 * 3600)
                  | none => false).map (·.tokens)).sum : ℤ) : ℚ) / 180) + 60) := by
      unfold backtestStep
      rw [hgt]
      dsimp only
      rw [if_neg hpne]
      try dsimp only
      rw [if_neg hwne]
      try dsimp only
      rw [if_pos ⟨hrate, hpred⟩]
      exact ⟨_, rfl, rfl, rfl, rfl, rfl, rfl⟩
    obtain ⟨r, hr, hridx, hrtl, hract, hrtok, hrpred⟩ := hstep
    refine ⟨r, hr, ?_, hridx, ?_, ?_, hrtok, ?_⟩
    · unfold backtestPredictions
      rw [if_neg (by omega)]
      exact List.mem_filterMap.mpr
        ⟨idx, List.mem_range'_1.mpr ⟨h1, by omega⟩, hr⟩
    · rw [hrtl, List.length_take]
      omega
    · rw [hract]
      push_cast
      ring_nf
    · rw [hrpred, mul_comm (pyMeanQ ((buildTrainingPatterns msgs (hits.take idx)).map
        fun p => (p.total_tokens : ℚ))) (0.8 : ℚ)]
  · intro msgs hits h
    unfold backtestPredictions
    rw [if_pos h]

/-- Witness for C4 amended: hits at 100000s and 200000s, one 600-token
training message and one 300-token message in the simulated window. -/
theorem backtest_amended_witness :
    ([hitAt 100000, hitAt 200000] : List LimitHit)[1]? = some (hitAt 200000) ∧
    buildTrainingPatterns [storedAt 95000 600, storedAt 180000 300]
      ([hitAt 100000, hitAt 200000].take 1) ≠ [] ∧
    0 < pyMeanQ ((buildTrainingPatterns [storedAt 95000 600, storedAt 180000 300]
        ([hitAt 100000, hitAt 200000].take 1)).map (·.avg_tokens_per_minute)) ∧
    (∃ r : BacktestResult,
      backtestStep [storedAt 95000 600, storedAt 180000 300]
        [hitAt 100000, hitAt 200000] 1 = some r ∧
      r ∈ backtestPredictions [storedAt 95000 600, storedAt 180000 300]
        [hitAt 100000, hitAt 200000] ∧
      r.test_idx = 1 ∧ r.training_limits = 1 ∧ r.actual_minutes = 180) := by
  have hrate : 0 < pyMeanQ ((buildTrainingPatterns
      [storedAt 95000 600, storedAt 180000 300]
      ([hitAt 100000, hitAt 200000].take 1)).map (·.avg_tokens_per_minute)) := by
    norm_num [buildTrainingPatterns, pyMeanQ, hitAt, storedAt, List.filter,
      List.take, List.filterMap]
  have hpred : 0 < ((((([storedAt 95000 600, storedAt 180000 300].filter fun m =>
      match m.timestamp with
      | some ts => ((hitAt 200000).timestamp - 3 * 3600 - 3 * 3600 ≤ ts) &&
          (ts < (hitAt 200000).timestamp - 3 * 3600)
      | none => false).map (·.tokens)).sum : ℤ) : ℚ) / 180) := by
    norm_num [hitAt, storedAt, List.filter]
  obtain ⟨r, h1, h2, h3, h4, h5, -, -⟩ :=
    backtest_amended.1 [storedAt 95000 600, storedAt 180000 300]
      [hitAt 100000, hitAt 200000] 1 (hitAt 200000) _ _
      (le_refl 1) rfl rfl rfl (by decide) (by decide) hrate hpred
  exact ⟨rfl, by decide, hrate, r, h1, h2, h3, h4, h5⟩

/-- C9: the metrics formatter can never print the best/worst-hour
arbitrage figures from processor data, because ingestion stores a plain
list of costs per hour while `_calculate_hourly_efficiency` requires a
per-hour dict and drops every non-dict value; with positive-token usage
in two distinct hours the section still prints the insufficient-data
message. -/
theorem timing_arbitrage_never_reports :
    (∀ st : ProcState, calculateHourlyEfficiency (analysisHourlyPatterns st) = []) ∧
    hoursWithPositiveTokens (runProcessor 0 [usageAt 3600, usageAt 7200]) = [1, 2] ∧
    analysisHourlyPatterns (runProcessor 0 [usageAt 3600, usageAt 7200]) ≠ [] ∧
    printTimingArbitrageMetrics
        (analysisHourlyPatterns (runProcessor 0 [usageAt 3600, usageAt 7200]))
      = ArbitrageReport.insufficientData := by
  refine ⟨?_, by decide, by decide, by decide⟩
  intro st
  unfold analysisHourlyPatterns calculateHourlyEfficiency
  rw [List.filterMap_map]
  exact List.filterMap_eq_nil_iff.mpr (fun a _ => rfl)

/-- C6: a line whose `timestamp` value is a number rather than a string
raises an uncaught `AttributeError` at `data['timestamp'].replace`
(`core.py:101`), aborting the whole run instead of being skipped; only
`json.JSONDecodeError`, `KeyError` and `ValueError` are caught.  A
syntactically invalid line and a well-formed line are handled as the
claim describes. -/
theorem bad_timestamp_line_aborts :
    processLine (initState 0) (Except.ok badTimestampLine)
      = Except.error PyExc.attributeError ∧
    processLine (initState 0) (Except.error PyExc.jsonDecodeError)
      = Except.ok (initState 0) ∧
    (processLine (initState 0) (Except.ok goodLine)).map
        (fun st => st.all_messages.length) = Except.ok 1 := by
  refine ⟨rfl, rfl, rfl⟩

lemma pyLogR_ok (x : ℝ) (h : 0 < x) : pyLogR x = Except.ok (Real.log x) := by
  unfold pyLogR
  rw [if_pos h]

lemma pyLogR_err (x : ℝ) (h : ¬0 < x) : pyLogR x = Except.error PyExc.valueError := by
  unfold pyLogR
  rw [if_neg h]

lemma pySqrtR_ok (x : ℝ) (h : 0 ≤ x) : pySqrtR x = Except.ok (Real.sqrt x) := by
  unfold pySqrtR
  rw [if_pos h]

lemma pyDivR_ok (a b : ℝ) (h : b ≠ 0) : pyDivR a b = Except.ok (a / b) := by
  unfold pyDivR
  rw [if_neg h]

lemma except_bind_ok {α β : Type} (a : α) (f : α → Except PyExc β) :
    (Except.ok a >>= f) = f a := rfl

lemma except_bind_err {α β : Type} (e : PyExc) (f : α → Except PyExc β) :
    ((Except.error e : Except PyExc α) >>= f) = Except.error e := rfl

lemma erfApprox_ok (x : ℝ) : ∃ y, erfApprox x = Except.ok y := by
  unfold erfApprox
  dsimp only
  have hpos : (0 : ℝ) < 1 + 0.3275911 * |x| := by positivity
  rw [pyDivR_ok _ _ hpos.ne']
  exact ⟨_, rfl⟩

/-- C8 counterexample: at mean 1, uncertainty 1 and horizon 0 the
probability computation reaches `math.log(horizon)` with a non-positive
argument and raises `ValueError` instead of returning a probability. -/
theorem probability_horizon_counterexample :
    calculateProbabilityWithinHorizon 1 1 0 = Except.error PyExc.valueError ∧
    (0 : ℝ) < 1 := by
  refine ⟨?_, one_pos⟩
  unfold calculateProbabilityWithinHorizon
  rw [if_neg (by norm_num : ¬(1 : ℝ) ≤ 0)]
  dsimp only
  have hs1 : (0 : ℝ) ≤ (1 : ℝ) ^ 2 + (1 : ℝ) ^ 2 := by norm_num
  rw [pySqrtR_ok _ hs1, except_bind_ok]
  have hsp : (0 : ℝ) < Real.sqrt ((1 : ℝ) ^ 2 + (1 : ℝ) ^ 2) :=
    Real.sqrt_pos.mpr (by norm_num)
  rw [pyDivR_ok _ _ hsp.ne', except_bind_ok]
  rw [pyLogR_ok _ (by positivity), except_bind_ok]
  rw [pyDivR_ok _ _ (by norm_num : ((1 : ℝ) ^ 2) ≠ 0), except_bind_ok]
  rw [pyLogR_ok _ (by norm_num : (0 : ℝ) < (1 : ℝ) ^ 2 / (1 : ℝ) ^ 2 + 1), except_bind_ok]
  rw [pySqrtR_ok _ (Real.log_nonneg (by norm_num)), except_bind_ok]
  rw [pyLogR_err _ (by norm_num), except_bind_err]

/-- C8 amended: for positive mean, positive uncertainty and POSITIVE
horizon the probability computation succeeds and is clamped to [0, 1];
with zero uncertainty it returns exactly 1 if mean ≤ horizon and 0
otherwise (any horizon). -/
theorem probability_horizon_amended :
    (∀ (mean uncertainty : ℝ) (horizon : ℤ),
      0 < mean → 0 < uncertainty → 0 < horizon →
      ∃ p, calculateProbabilityWithinHorizon mean uncertainty horizon
          = Except.ok p ∧ 0 ≤ p ∧ p ≤ 1) ∧
    (∀ (mean : ℝ) (horizon : ℤ),
      calculateProbabilityWithinHorizon mean 0 horizon
        = Except.ok (if mean ≤ (horizon : ℝ) then 1 else 0)) := by
  constructor
  · intro mean uncertainty horizon hm hu hh
    unfold calculateProbabilityWithinHorizon
    rw [if_neg (not_le.mpr hu)]
    dsimp only
    have hs1 : (0 : ℝ) ≤ uncertainty ^ 2 + mean ^ 2 := by positivity
    rw [pySqrtR_ok _ hs1, except_bind_ok]
    have hsp : (0 : ℝ) < Real.sqrt (uncertainty ^ 2 + mean ^ 2) :=
      Real.sqrt_pos.mpr (by positivity)
    rw [pyDivR_ok _ _ hsp.ne', except_bind_ok]
    rw [pyLogR_ok _ (by positivity), except_bind_ok]
    rw [pyDivR_ok _ _ (by positivity : (mean ^ 2) ≠ 0), except_bind_ok]
    have hq2 : (0 : ℝ) < uncertainty ^ 2 / mean ^ 2 + 1 := by positivity
    rw [pyLogR_ok _ hq2, except_bind_ok]
    have hl2 : (0 : ℝ) ≤ Real.log (uncertainty ^ 2 / mean ^ 2 + 1) := by
      apply Real.log_nonneg
      have : (0 : ℝ) ≤ uncertainty ^ 2 / mean ^ 2 := by positivity
      linarith
    rw [pySqrtR_ok _ hl2, except_bind_ok]
    have hhr : (0 : ℝ) < ((horizon : ℤ) : ℝ) := by exact_mod_cast hh
    rw [pyLogR_ok _ hhr, except_bind_ok]
    have hsig : (0 : ℝ) < Real.sqrt (Real.log (uncertainty ^ 2 / mean ^ 2 + 1)) := by
      apply Real.sqrt_pos.mpr
      apply Real.log_pos
      have : (0 : ℝ) < uncertainty ^ 2 / mean ^ 2 := by positivity
      linarith
    rw [pyDivR_ok _ _ hsig.ne', except_bind_ok]
    rw [pySqrtR_ok _ (by norm_num : (0 : ℝ) ≤ 2), except_bind_ok]
    have hs2 : (0 : ℝ) < Real.sqrt 2 := Real.sqrt_pos.mpr (by norm_num)
    rw [pyDivR_ok _ _ hs2.ne', except_bind_ok]
    obtain ⟨y, hy⟩ := erfApprox_ok
      (((Real.log ((horizon : ℤ) : ℝ) -
          Real.log (mean ^ 2 / Real.sqrt (uncertainty ^ 2 + mean ^ 2))) /
        Real.sqrt (Real.log (uncertainty ^ 2 / mean ^ 2 + 1))) / Real.sqrt 2)
    rw [hy, except_bind_ok]
    refine ⟨_, rfl, ?_, ?_⟩
    · exact le_min (by norm_num) (le_max_left 0 _)
    · exact min_le_left _ _
  · intro mean horizon
    unfold calculateProbabilityWithinHorizon
    rw [if_pos (le_refl (0 : ℝ))]

/-- Witness for C8 amended at mean 1, uncertainty 1, horizon 1 (and the
zero-uncertainty clause at mean 5, horizon 3). -/
theorem probability_horizon_amended_witness :
    (0 : ℝ) < 1 ∧ (0 : ℤ) < 1 ∧
    (∃ p, calculateProbabilityWithinHorizon 1 1 1 = Except.ok p ∧ 0 ≤ p ∧ p ≤ 1) ∧
    calculateProbabilityWithinHorizon 5 0 3
      = Except.ok (if (5 : ℝ) ≤ ((3 : ℤ) : ℝ) then 1 else 0) :=
  ⟨one_pos, one_pos,
   probability_horizon_amended.1 1 1 1 one_pos one_pos one_pos,
   probability_horizon_amended.2 5 3⟩

/-- C10: the StatisticsError branch of the base-prediction rate
adjustment is reachable — with a positive current token rate and one
historical pattern whose average rate is 0 (time-to-limit key absent),
`predict_time_to_limit` raises an unhandled `StatisticsError` (mean of
the empty filtered rate list) instead of returning a result. -/
theorem advanced_predictor_statistics_error :
    predictTimeToLimit c10features SessionContext.unknown [c10pattern] 60
      = Except.error PyExc.statisticsError ∧
    0 < c10features.tokens_per_minute ∧
    c10pattern.avg_tokens_per_minute = some 0 ∧
    c10pattern.time_to_limit_minutes = none := by
  refine ⟨?_, by norm_num [c10features], rfl, rfl⟩
  have hbase : calculateBasePrediction [c10pattern] c10features
      = Except.error PyExc.statisticsError := by
    unfold calculateBasePrediction
    rw [if_neg (List.cons_ne_nil _ _)]
    have hfil : (([c10pattern].map fun p => p.avg_tokens_per_minute.getD 0).filter
        fun r => 0 < r) = [] := by
      simp [c10pattern, List.filter, lt_irrefl]
    dsimp only
    rw [if_pos (by norm_num [c10features] : (0 : ℝ) < c10features.tokens_per_minute)]
    rw [hfil]
    rw [show pyMeanR ([] : List ℝ) = Except.error PyExc.statisticsError from by
      unfold pyMeanR; rw [if_pos rfl]]
    rfl
  unfold predictTimeToLimit
  rw [if_neg (List.cons_ne_nil _ _)]
  rw [hbase, except_bind_err]

end ClaudeCost
